import Mathlib

/-!
Shallow embedding of the statement- and type-grammar layer of the Leo
recursive-descent parser (src/compiler/parser/src/parser/statement.rs and
src/compiler/parser/src/parser/type_.rs), together with models of the external
collaborators the spec describes (token cursor, expression parser, delimited
list parser, diagnostics sink).

The Rust parser mutates a `ParserContext` through `&mut self` and signals
fatal errors through `Result` with the `?` operator; mutations performed
before an early return persist.  We model this with explicit state passing:
a parser is a function `ParserContext → PResult α` where both the success
and the fatal-error constructor carry the state at the moment of return.
Unbounded recursion (nested blocks) is modelled with explicit fuel; the spec
notes the only bound in the source is the host call-stack.
-/

namespace LeoParser

/-- Source range with a merge operation (spec section 3: merge is the smallest
span containing both operands). -/
structure Span where
  lo : Nat
  hi : Nat
deriving DecidableEq, Repr

/-- Merge of two spans, written `+` in the Rust source. -/
def Span.merge (a b : Span) : Span := ⟨min a.lo b.lo, max a.hi b.hi⟩

instance : Add Span := ⟨Span.merge⟩

/-- Token kinds consumed by the statement and type grammar.  Produced by the
external tokenizer; the payloads of `Ident`, `Int` and `StringLit` are the
interned name, the numeral, and the character sequence of the literal. -/
inductive Token where
  | Assign | Semicolon | Colon | Dot | DotDot | Comma
  | LeftParen | RightParen | LeftCurly | RightCurly
  | Return | If | Else | For | In | Console | Let | Const
  | I8 | I16 | I32 | I64 | I128 | U8 | U16 | U32 | U64 | U128
  | Field | Group | Address | Bool | Char
  | Ident (name : String)
  | Int (n : Nat)
  | StringLit (chars : List Char)
  | Eof
deriving DecidableEq, Repr

/-- A token together with its source span. -/
structure SpannedToken where
  token : Token
  span : Span
deriving DecidableEq, Repr

/-- Interned name plus span. -/
structure Identifier where
  name : String
  span : Span
deriving DecidableEq, Repr

/-- Modelled from the spec: the external expression parser is a black box
returning an `Expression` node with a span (spec sections 1, 6).  We model the
minimal expression vocabulary the statement grammar's behaviour depends on:
identifier expressions (the only legal assignment targets), integer literal
values (loop bounds), and circuit-construction expressions
`Identifier { ... }` (the construct the `disallow_circuit_construction` flag
exists to suppress, spec glossary). -/
inductive Expression where
  | identifier (id : Identifier)
  | value (n : Nat) (span : Span)
  | circuitInit (id : Identifier) (span : Span)
deriving DecidableEq, Repr

/-- Span of an expression node. -/
def Expression.span : Expression → Span
  | .identifier id => id.span
  | .value _ sp => sp
  | .circuitInit _ sp => sp

/-- Span-erased shape of an expression, used to compare AST shapes. -/
inductive ExprShape where
  | identifier (name : String)
  | value (n : Nat)
  | circuitInit (name : String)
deriving DecidableEq, Repr

/-- Span erasure on expressions. -/
def Expression.shape : Expression → ExprShape
  | .identifier id => .identifier id.name
  | .value n _ => .value n
  | .circuitInit id _ => .circuitInit id.name

/-- Integer types: the ten width and signedness combinations. -/
inductive IntegerType where
  | I8 | I16 | I32 | I64 | I128 | U8 | U16 | U32 | U64 | U128
deriving DecidableEq, Repr

/-- The `Type` AST union of the source (named `Ty` here because `Type` is a
Lean universe): five non-integer primitives, the integer types, and
user-defined type references. -/
inductive Ty where
  | Field | Group | Address | Boolean | Char
  | IntegerType (t : IntegerType)
  | Identifier (id : Identifier)
deriving DecidableEq, Repr

/-- Declaration kind of a definition statement. -/
inductive Declare where
  | Let | Const
deriving DecidableEq, Repr

/-- A declared variable name with its mutability. -/
structure VariableName where
  span : Span
  mutable : Bool
  identifier : Identifier
deriving DecidableEq, Repr

/-- Access path element on an assignment target.  The statement grammar never
constructs one (spec section 9), so the type is uninhabited. -/
inductive AssigneeAccess
deriving DecidableEq, Repr

/-- Assignment target: identifier plus (always empty) access path. -/
structure Assignee where
  span : Span
  identifier : Identifier
  accesses : List AssigneeAccess
deriving DecidableEq, Repr

/-- Assignment operation; only plain `=` exists in this grammar. -/
inductive AssignOperation where
  | Assign
deriving DecidableEq, Repr

/-- Return statement node. -/
structure ReturnStatement where
  expression : Expression
  span : Span
deriving DecidableEq, Repr

/-- Console argument list: format string plus interpolation parameters. -/
structure ConsoleArgs where
  string : List Char
  span : Span
  parameters : List Expression
deriving DecidableEq, Repr

/-- The three console functions. -/
inductive ConsoleFunction where
  | Assert (e : Expression)
  | Error (args : ConsoleArgs)
  | Log (args : ConsoleArgs)
deriving DecidableEq, Repr

/-- Span of a console function node. -/
def ConsoleFunction.span : ConsoleFunction → Span
  | .Assert e => e.span
  | .Error args => args.span
  | .Log args => args.span

/-- Console statement node. -/
structure ConsoleStatement where
  function : ConsoleFunction
  span : Span
deriving DecidableEq, Repr

/-- Definition statement node. -/
structure DefinitionStatement where
  declaration_type : Declare
  variable_names : List VariableName
  type_ : Ty
  value : Expression
  span : Span
deriving DecidableEq, Repr

/-- Assignment statement node. -/
structure AssignStatement where
  operation : AssignOperation
  assignee : Assignee
  value : Expression
  span : Span
deriving DecidableEq, Repr

mutual

/-- The statement union (spec section 3), with the `Dummy` error-placeholder
variant.  Modelled from the spec for the variants whose AST definitions are
outside the given sources. -/
inductive Statement where
  | Return (r : ReturnStatement)
  | Conditional (c : ConditionalStatement)
  | Iteration (i : IterationStatement)
  | Console (c : ConsoleStatement)
  | Definition (d : DefinitionStatement)
  | Block (b : Block)
  | Assign (a : AssignStatement)
  | Dummy (span : Span)

/-- Ordered statement sequence with covering span. -/
inductive Block where
  | mk (statements : List Statement) (span : Span)

/-- Conditional with optional chained successor (Block or Conditional by
policy, but any statement can be attached after a diagnostic). -/
inductive ConditionalStatement where
  | mk (condition : Expression) (block : Block) (next : Option Statement) (span : Span)

/-- Iteration statement with exclusive range bounds. -/
inductive IterationStatement where
  | mk (variable_ : Identifier) (type_ : Ty) (start : Expression)
       (stop : Expression) (inclusive : Bool) (block : Block) (span : Span)

end

/-- Statements of a block. -/
def Block.statements : Block → List Statement
  | .mk sts _ => sts

/-- Span of a block. -/
def Block.span : Block → Span
  | .mk _ sp => sp

/-- Condition of a conditional statement. -/
def ConditionalStatement.condition : ConditionalStatement → Expression
  | .mk c _ _ _ => c

/-- Body block of a conditional statement. -/
def ConditionalStatement.block : ConditionalStatement → Block
  | .mk _ b _ _ => b

/-- Optional chained successor of a conditional statement. -/
def ConditionalStatement.next : ConditionalStatement → Option Statement
  | .mk _ _ n _ => n

/-- Span of a conditional statement. -/
def ConditionalStatement.span : ConditionalStatement → Span
  | .mk _ _ _ sp => sp

/-- Loop variable of an iteration statement. -/
def IterationStatement.variable_ : IterationStatement → Identifier
  | .mk v _ _ _ _ _ _ => v

/-- Element type of an iteration statement. -/
def IterationStatement.type_ : IterationStatement → Ty
  | .mk _ t _ _ _ _ _ => t

/-- Start bound of an iteration statement. -/
def IterationStatement.start : IterationStatement → Expression
  | .mk _ _ st _ _ _ _ => st

/-- Stop bound of an iteration statement. -/
def IterationStatement.stop : IterationStatement → Expression
  | .mk _ _ _ st _ _ _ => st

/-- Inclusive flag of an iteration statement. -/
def IterationStatement.inclusive : IterationStatement → Bool
  | .mk _ _ _ _ inc _ _ => inc

/-- Body block of an iteration statement. -/
def IterationStatement.block : IterationStatement → Block
  | .mk _ _ _ _ _ b _ => b

/-- Span of an iteration statement. -/
def IterationStatement.span : IterationStatement → Span
  | .mk _ _ _ _ _ _ sp => sp

/-- Span of a statement node. -/
def Statement.span : Statement → Span
  | .Return r => r.span
  | .Conditional c => c.span
  | .Iteration i => i.span
  | .Console c => c.span
  | .Definition d => d.span
  | .Block b => b.span
  | .Assign a => a.span
  | .Dummy sp => sp

/-- Modelled from the spec: the dummy error-placeholder statement
(`Statement::dummy(span)` in the source; the `Dummy` variant of the statement
union per spec section 3). -/
def Statement.dummy (span : Span) : Statement := Statement.Dummy span

/-- Modelled from the spec: the `ParserError` kinds named by the source and
the spec's error-handling section.  `unexpected` is the generic
required-token failure of the cursor's `expect` family; `unexpected_expr`
is the expression parser's failure; `recursion_limit` models exhaustion of
the host call stack, the only recursion bound the spec names (section 4.3). -/
inductive ParserError where
  | invalid_assignment_target (span : Span)
  | expr_stmts_disallowed (span : Span)
  | unexpected_statement (expected : String) (span : Span)
  | unexpected_str (got : Token) (expected : String) (span : Span)
  | unexpected_ident (got : String) (expected : List String) (span : Span)
  | invalid_parens_around_single_variable (span : Span)
  | unexpected (got : Token) (expected : List Token) (span : Span)
  | unexpected_expr (got : Token) (span : Span)
  | recursion_limit (span : Span)
deriving DecidableEq, Repr

/-- Modelled from the spec: the parser state (spec section 2) — the token
cursor (remaining tokens, current token, previous token), the
`disallow_circuit_construction` ambiguity flag, and the accumulator of
recoverable diagnostics. -/
structure ParserContext where
  tokens : List SpannedToken
  token : SpannedToken
  prev_token : SpannedToken
  disallow_circuit_construction : Bool
  diagnostics : List ParserError
deriving DecidableEq, Repr

/-- Result of a parser step.  Rust mutates the context through `&mut self`
and propagates fatal errors with `?`, so mutations made before an early
return persist: both constructors carry the context at the moment of
return. -/
inductive PResult (α : Type) where
  | ok (a : α) (s : ParserContext)
  | fatal (e : ParserError) (s : ParserContext)
deriving Repr

/-- The context carried by a result, in either outcome. -/
def PResult.state {α : Type} : PResult α → ParserContext
  | .ok _ s => s
  | .fatal _ s => s

/-- True when the result is a success. -/
def PResult.isOk {α : Type} : PResult α → Bool
  | .ok _ _ => true
  | .fatal _ _ => false

/-- True when the result is a fatal error. -/
def PResult.isFatal {α : Type} : PResult α → Bool
  | .ok _ _ => false
  | .fatal _ _ => true

/-- The produced node, if any. -/
def PResult.getOk {α : Type} : PResult α → Option α
  | .ok a _ => some a
  | .fatal _ _ => none

/-- The context of a successful result, if any. -/
def PResult.okState {α : Type} : PResult α → Option ParserContext
  | .ok _ s => some s
  | .fatal _ _ => none

/-- Modelled from the spec: advance the cursor one token; at the end of the
stream the current token becomes `Eof` carrying the last span (spec
section 2, token stream cursor). -/
def bump (s : ParserContext) : ParserContext :=
  match s.tokens with
  | [] => { s with prev_token := s.token, token := ⟨Token.Eof, s.token.span⟩ }
  | t :: rest => { s with prev_token := s.token, token := t, tokens := rest }

/-- Modelled from the spec: consume the current token if it matches,
reporting whether it did. -/
def eat (tok : Token) (s : ParserContext) : Bool × ParserContext :=
  if s.token.token = tok then (true, bump s) else (false, s)

/-- Modelled from the spec: consume the current token if it matches any of
the given kinds. -/
def eat_any (toks : List Token) (s : ParserContext) : Bool × ParserContext :=
  if s.token.token ∈ toks then (true, bump s) else (false, s)

/-- Modelled from the spec: require the current token to match, returning
its span, or fail fatally (spec section 7, fatal parse errors). -/
def expect (tok : Token) (s : ParserContext) : PResult Span :=
  if s.token.token = tok then .ok s.token.span (bump s)
  else .fatal (ParserError.unexpected s.token.token [tok] s.token.span) s

/-- Modelled from the spec: require the current token to match one of the
given kinds, returning its span, or fail fatally. -/
def expect_any (toks : List Token) (s : ParserContext) : PResult Span :=
  if s.token.token ∈ toks then .ok s.token.span (bump s)
  else .fatal (ParserError.unexpected s.token.token toks s.token.span) s

/-- Modelled from the spec: consume an identifier token if one is current. -/
def eat_identifier (s : ParserContext) : Option Identifier × ParserContext :=
  match s.token.token with
  | Token.Ident name => (some ⟨name, s.token.span⟩, bump s)
  | _ => (none, s)

/-- Modelled from the spec: require an identifier token, or fail fatally. -/
def expect_ident (s : ParserContext) : PResult Identifier :=
  match s.token.token with
  | Token.Ident name => .ok ⟨name, s.token.span⟩ (bump s)
  | t => .fatal (ParserError.unexpected t [] s.token.span) s

/-- True when the current token is a left parenthesis. -/
def peek_is_left_par (s : ParserContext) : Bool :=
  s.token.token = Token.LeftParen

/-- Modelled from the spec: append a recoverable diagnostic to the
accumulator without interrupting control flow (spec section 7). -/
def emit_err (e : ParserError) (s : ParserContext) : ParserContext :=
  { s with diagnostics := s.diagnostics ++ [e] }

/-- Modelled from the spec: the external expression parser (spec sections 1,
6): returns one `Expression` node with a span or a fatal error, consuming
tokens left to right.  It honours `disallow_circuit_construction` (spec
glossary): when the flag is cleared, an identifier followed by `{` parses as
a circuit-construction expression; when the flag is set, the identifier alone
is the expression and the brace is left for the statement grammar. -/
def parse_expression (s : ParserContext) : PResult Expression :=
  match s.token.token with
  | Token.Int n => .ok (Expression.value n s.token.span) (bump s)
  | Token.Ident name =>
    let sp := s.token.span
    let s := bump s
    if s.disallow_circuit_construction then .ok (Expression.identifier ⟨name, sp⟩) s
    else
      match s.token.token with
      | Token.LeftCurly =>
        let s := bump s
        match expect Token.RightCurly s with
        | .fatal e s => .fatal e s
        | .ok close s => .ok (Expression.circuitInit ⟨name, sp⟩ (sp + close)) s
      | _ => .ok (Expression.identifier ⟨name, sp⟩) s
  | t => .fatal (ParserError.unexpected_expr t s.token.span) s

/-- Modelled from the spec: the expression-grammar entry point used for
conditions and loop stop bounds; the spec treats the whole expression parser
as one black box, so it is the same parser. -/
def parse_conditional_expression (s : ParserContext) : PResult Expression :=
  parse_expression s

/-- The fixed closed set of primitive-type tokens (type_.rs, `TYPE_TOKENS`). -/
def TYPE_TOKENS : List Token :=
  [Token.I8, Token.I16, Token.I32, Token.I64, Token.I128,
   Token.U8, Token.U16, Token.U32, Token.U64, Token.U128,
   Token.Field, Token.Group, Token.Address, Token.Bool, Token.Char]

/-- Maps a supported integer-type token to its `IntegerType`
(type_.rs, `token_to_int_type`). -/
def token_to_int_type : Token → Option IntegerType
  | Token.I8 => some IntegerType.I8
  | Token.I16 => some IntegerType.I16
  | Token.I32 => some IntegerType.I32
  | Token.I64 => some IntegerType.I64
  | Token.I128 => some IntegerType.I128
  | Token.U8 => some IntegerType.U8
  | Token.U16 => some IntegerType.U16
  | Token.U32 => some IntegerType.U32
  | Token.U64 => some IntegerType.U64
  | Token.U128 => some IntegerType.U128
  | _ => none

/-- Parses a non-identifier type (type_.rs, `parse_non_ident_types`):
requires one of `TYPE_TOKENS` and maps it to its `Ty` variant.  The default
of the inner match is unreachable because `expect_any` admits only
`TYPE_TOKENS` (the source uses `.expect("invalid int type")` there). -/
def parse_non_ident_types (s : ParserContext) : PResult (Ty × Span) :=
  match expect_any TYPE_TOKENS s with
  | .fatal e s => .fatal e s
  | .ok span s =>
    .ok
      (match s.prev_token.token with
       | Token.Field => Ty.Field
       | Token.Group => Ty.Group
       | Token.Address => Ty.Address
       | Token.Bool => Ty.Boolean
       | Token.Char => Ty.Char
       | x =>
         match token_to_int_type x with
         | some t => Ty.IntegerType t
         | none => Ty.IntegerType IntegerType.I8,
       span) s

/-- Parses any type (type_.rs, `parse_all_types`): a bare identifier becomes
a user-defined `Ty.Identifier` reference, otherwise a primitive type. -/
def parse_all_types (s : ParserContext) : PResult (Ty × Span) :=
  match eat_identifier s with
  | (some ident, s) => .ok (Ty.Identifier ident, ident.span) s
  | (none, s) => parse_non_ident_types s

/-- Modelled from the spec: the type-annotation entry point `parse_type`
called by statement.rs is outside the given sources; the spec's type grammar
(section 4.7) has no forms beyond primitives and user-defined identifiers,
so it is `parse_all_types`. -/
def parse_type (s : ParserContext) : PResult (Ty × Span) :=
  parse_all_types s

/-- Modelled from the spec: the element loop of the generic delimited-list
parser (spec sections 2, 6).  The element parser `f` may report "no node
produced" for special first-slot handling and threads the closure state `σ`
(the captured environment of the Rust closure).  The loop stops at the
closing parenthesis or after an element not followed by a comma; the closing
parenthesis itself is consumed by the caller. -/
def parse_list_loop {α σ : Type} (f : σ → ParserContext → PResult (Option α × σ)) :
    Nat → σ → ParserContext → PResult (List α × σ)
  | 0, _, s => .fatal (ParserError.recursion_limit s.token.span) s
  | fuel + 1, st, s =>
    if s.token.token = Token.RightParen then .ok ([], st) s
    else
      match f st s with
      | .fatal e s => .fatal e s
      | .ok (elem, st) s =>
        let (ate, s) := eat Token.Comma s
        if ate then
          match parse_list_loop f fuel st s with
          | .fatal e s => .fatal e s
          | .ok (rest, st) s =>
            .ok ((match elem with | some e => e :: rest | none => rest), st) s
        else
          .ok ((match elem with | some e => [e] | none => []), st) s

/-- Modelled from the spec: the generic delimited-list parser for
comma-separated parenthesized lists (spec sections 2, 6): consumes
`( elem , elem , ... )` — possibly zero elements — applying the element
parser per slot, and returns the produced nodes, the final closure state,
and the covering span. -/
def parse_paren_comma_list {α σ : Type} (fuel : Nat)
    (f : σ → ParserContext → PResult (Option α × σ)) (init : σ)
    (s : ParserContext) : PResult (List α × σ × Span) :=
  match expect Token.LeftParen s with
  | .fatal e s => .fatal e s
  | .ok open_span s =>
    match parse_list_loop f fuel init s with
    | .fatal e s => .fatal e s
    | .ok (elems, st) s =>
      match expect Token.RightParen s with
      | .fatal e s => .fatal e s
      | .ok close_span s => .ok (elems, st, open_span + close_span) s

/-- The only assignment operator token (statement.rs, `ASSIGN_TOKENS`). -/
def ASSIGN_TOKENS : List Token := [Token.Assign]

/-- Converts an expression into the identifier of an assignment target;
only identifier expressions qualify (statement.rs,
`construct_assignee_access`).  The access list argument is unused, as in the
source. -/
def construct_assignee_access (expr : Expression) (_accesses : List AssigneeAccess) :
    Except ParserError Identifier :=
  match expr with
  | Expression.identifier id => .ok id
  | _ => .error (ParserError.invalid_assignment_target expr.span)

/-- Builds an `Assignee` from an expression (statement.rs,
`construct_assignee`). -/
def construct_assignee (expr : Expression) : Except ParserError Assignee :=
  match construct_assignee_access expr [] with
  | .error e => .error e
  | .ok identifier => .ok ⟨expr.span, identifier, []⟩

/-- Parses an assignment or expression statement (statement.rs,
`parse_assign_statement`): an expression, then either an assignment operator
with a right-hand side, or — for a bare expression statement — a required
semicolon, a recoverable `expr_stmts_disallowed` diagnostic, and a dummy
placeholder spanning expression through terminator. -/
def parse_assign_statement (s : ParserContext) : PResult Statement :=
  match parse_expression s with
  | .fatal e s => .fatal e s
  | .ok expr s =>
    let (ate, s) := eat_any ASSIGN_TOKENS s
    if ate then
      match parse_expression s with
      | .fatal e s => .fatal e s
      | .ok value s =>
        match construct_assignee expr with
        | .error e => .fatal e s
        | .ok assignee =>
          match expect Token.Semicolon s with
          | .fatal e s => .fatal e s
          | .ok _ s =>
            .ok (Statement.Assign
              ⟨AssignOperation.Assign, assignee, value, assignee.span + value.span⟩) s
    else
      match expect Token.Semicolon s with
      | .fatal e s => .fatal e s
      | .ok _ s =>
        let span := expr.span + s.prev_token.span
        let s := emit_err (ParserError.expr_stmts_disallowed span) s
        .ok (Statement.dummy span) s

/-- Parses a return statement (statement.rs, `parse_return_statement`). -/
def parse_return_statement (s : ParserContext) : PResult ReturnStatement :=
  match expect Token.Return s with
  | .fatal e s => .fatal e s
  | .ok start s =>
    match parse_expression s with
    | .fatal e s => .fatal e s
    | .ok expression s =>
      match expect Token.Semicolon s with
      | .fatal e s => .fatal e s
      | .ok _ s => .ok ⟨expression, start + expression.span⟩ s

/-- Parses the console argument list (statement.rs, `parse_console_args`):
a parenthesized comma list whose first element must lexically be a string
literal captured as the format string (with a recoverable `unexpected_str`
diagnostic and an empty format string otherwise) and whose remaining
elements are interpolation expressions.  The closure state is the captured
`string : Option (List Char)` of the Rust closure. -/
def parse_console_args (fuel : Nat) (s : ParserContext) : PResult ConsoleArgs :=
  match parse_paren_comma_list fuel
    (fun string p =>
      match string with
      | none =>
        let p := bump p
        match p.prev_token.token with
        | Token.StringLit chars => .ok (none, some chars) p
        | t =>
          let p := emit_err (ParserError.unexpected_str t "formatted string" p.prev_token.span) p
          .ok (none, some []) p
      | some _ =>
        match parse_expression p with
        | .fatal e p => .fatal e p
        | .ok e p => .ok (some e, string) p)
    none s with
  | .fatal e s => .fatal e s
  | .ok (parameters, string, span) s =>
    .ok ⟨(string.getD []), span, parameters⟩ s

/-- Parses a console statement (statement.rs, `parse_console_statement`):
`assert` takes exactly one parenthesized expression, `error` and `log` take
a console argument list, and any other function name is treated as `log`
after a recoverable `unexpected_ident` diagnostic listing the valid names. -/
def parse_console_statement (fuel : Nat) (s : ParserContext) : PResult ConsoleStatement :=
  match expect Token.Console s with
  | .fatal e s => .fatal e s
  | .ok keyword s =>
    match expect Token.Dot s with
    | .fatal e s => .fatal e s
    | .ok _ s =>
      match expect_ident s with
      | .fatal e s => .fatal e s
      | .ok function s =>
        let res : PResult ConsoleFunction :=
          if function.name = "assert" then
            match expect Token.LeftParen s with
            | .fatal e s => .fatal e s
            | .ok _ s =>
              match parse_expression s with
              | .fatal e s => .fatal e s
              | .ok expr s =>
                match expect Token.RightParen s with
                | .fatal e s => .fatal e s
                | .ok _ s => .ok (ConsoleFunction.Assert expr) s
          else if function.name = "error" then
            match parse_console_args fuel s with
            | .fatal e s => .fatal e s
            | .ok args s => .ok (ConsoleFunction.Error args) s
          else if function.name = "log" then
            match parse_console_args fuel s with
            | .fatal e s => .fatal e s
            | .ok args s => .ok (ConsoleFunction.Log args) s
          else
            let s := emit_err (ParserError.unexpected_ident function.name
              ["assert", "error", "log"] function.span) s
            match parse_console_args fuel s with
            | .fatal e s => .fatal e s
            | .ok args s => .ok (ConsoleFunction.Log args) s
        match res with
        | .fatal e s => .fatal e s
        | .ok fn s =>
          match expect Token.Semicolon s with
          | .fatal e s => .fatal e s
          | .ok _ s => .ok ⟨fn, keyword + fn.span⟩ s

/-- Parses one declared variable name (statement.rs, `parse_variable_name`);
mutability is derived from the declaration kind. -/
def parse_variable_name (decl_ty : Declare) (_span : Span) (s : ParserContext) :
    PResult VariableName :=
  match expect_ident s with
  | .fatal e s => .fatal e s
  | .ok name s =>
    .ok ⟨name.span, (match decl_ty with | Declare.Let => true | Declare.Const => false),
         name⟩ s

/-- Parses a definition statement (statement.rs,
`parse_definition_statement`): `let`/`const`, then a single bare variable
name or a parenthesized comma list of names (flagged with a recoverable
diagnostic when the list has exactly one element), then a mandatory type
annotation, `=`, initializer expression, and semicolon. -/
def parse_definition_statement (fuel : Nat) (s : ParserContext) : PResult DefinitionStatement :=
  match expect_any [Token.Let, Token.Const] s with
  | .fatal e s => .fatal e s
  | .ok _ s =>
    let decl_span := s.prev_token.span
    let decl_type : Declare :=
      match s.prev_token.token with
      | Token.Let => Declare.Let
      | Token.Const => Declare.Const
      | _ => Declare.Let
    let vars_res : PResult (List VariableName) :=
      if peek_is_left_par s then
        match parse_paren_comma_list fuel
          (fun (_ : Unit) p =>
            match parse_variable_name decl_type decl_span p with
            | .fatal e p => .fatal e p
            | .ok v p => .ok (some v, ()) p) () s with
        | .fatal e s => .fatal e s
        | .ok (vars, _, _) s =>
          let s :=
            match vars with
            | [v] => emit_err (ParserError.invalid_parens_around_single_variable v.span) s
            | _ => s
          .ok vars s
      else
        match parse_variable_name decl_type decl_span s with
        | .fatal e s => .fatal e s
        | .ok v s => .ok [v] s
    match vars_res with
    | .fatal e s => .fatal e s
    | .ok variable_names s =>
      match expect Token.Colon s with
      | .fatal e s => .fatal e s
      | .ok _ s =>
        match parse_type s with
        | .fatal e s => .fatal e s
        | .ok type_ s =>
          match expect Token.Assign s with
          | .fatal e s => .fatal e s
          | .ok _ s =>
            match parse_expression s with
            | .fatal e s => .fatal e s
            | .ok expr s =>
              match expect Token.Semicolon s with
              | .fatal e s => .fatal e s
              | .ok _ s =>
                .ok ⟨decl_type, variable_names, type_.1, expr, decl_span + expr.span⟩ s

mutual

/-- Dispatches on the current token to one statement sub-parser
(statement.rs, `parse_statement`); anything not starting a recognized
statement falls through to the assignment / expression-statement parser. -/
def parse_statement : Nat → ParserContext → PResult Statement
  | 0, s => .fatal (ParserError.recursion_limit s.token.span) s
  | fuel + 1, s =>
    match s.token.token with
    | Token.Return =>
      match parse_return_statement s with
      | .fatal e s => .fatal e s
      | .ok r s => .ok (Statement.Return r) s
    | Token.If =>
      match parse_conditional_statement fuel s with
      | .fatal e s => .fatal e s
      | .ok c s => .ok (Statement.Conditional c) s
    | Token.For =>
      match parse_loop_statement fuel s with
      | .fatal e s => .fatal e s
      | .ok i s => .ok (Statement.Iteration i) s
    | Token.Console =>
      match parse_console_statement fuel s with
      | .fatal e s => .fatal e s
      | .ok c s => .ok (Statement.Console c) s
    | Token.Let =>
      match parse_definition_statement fuel s with
      | .fatal e s => .fatal e s
      | .ok d s => .ok (Statement.Definition d) s
    | Token.Const =>
      match parse_definition_statement fuel s with
      | .fatal e s => .fatal e s
      | .ok d s => .ok (Statement.Definition d) s
    | Token.LeftCurly =>
      match parse_block fuel s with
      | .fatal e s => .fatal e s
      | .ok b s => .ok (Statement.Block b) s
    | _ => parse_assign_statement s

/-- Parses a conditional statement (statement.rs,
`parse_conditional_statement`): `if`, then the condition expression with
`disallow_circuit_construction` set and cleared again after a successful
expression parse, the body block, and an optional `else` successor which is
accepted — after a recoverable `unexpected_statement` diagnostic — even when
it is neither a `Block` nor a `Conditional`. -/
def parse_conditional_statement : Nat → ParserContext → PResult ConditionalStatement
  | 0, s => .fatal (ParserError.recursion_limit s.token.span) s
  | fuel + 1, s =>
    match expect Token.If s with
    | .fatal e s => .fatal e s
    | .ok start s =>
      let s := { s with disallow_circuit_construction := true }
      match parse_conditional_expression s with
      | .fatal e s => .fatal e s
      | .ok expr s =>
        let s := { s with disallow_circuit_construction := false }
        match parse_block fuel s with
        | .fatal e s => .fatal e s
        | .ok body s =>
          let (ate, s) := eat Token.Else s
          if ate then
            match parse_statement fuel s with
            | .fatal e s => .fatal e s
            | .ok st s =>
              let s :=
                match st with
                | Statement.Block _ => s
                | Statement.Conditional _ => s
                | _ => emit_err
                    (ParserError.unexpected_statement "Block or Conditional" st.span) s
              .ok (ConditionalStatement.mk expr body (some st) (start + st.span)) s
          else
            .ok (ConditionalStatement.mk expr body none (start + body.span)) s

/-- Parses an iteration statement (statement.rs, `parse_loop_statement`):
`for <ident> : <type> in <start> .. <stop> <block>`, with the stop bound
parsed under `disallow_circuit_construction` and the `inclusive` flag always
constructed `false`. -/
def parse_loop_statement : Nat → ParserContext → PResult IterationStatement
  | 0, s => .fatal (ParserError.recursion_limit s.token.span) s
  | fuel + 1, s =>
    match expect Token.For s with
    | .fatal e s => .fatal e s
    | .ok start_span s =>
      match expect_ident s with
      | .fatal e s => .fatal e s
      | .ok ident s =>
        match expect Token.Colon s with
        | .fatal e s => .fatal e s
        | .ok _ s =>
          match parse_type s with
          | .fatal e s => .fatal e s
          | .ok type_ s =>
            match expect Token.In s with
            | .fatal e s => .fatal e s
            | .ok _ s =>
              match parse_expression s with
              | .fatal e s => .fatal e s
              | .ok start s =>
                match expect Token.DotDot s with
                | .fatal e s => .fatal e s
                | .ok _ s =>
                  let s := { s with disallow_circuit_construction := true }
                  match parse_conditional_expression s with
                  | .fatal e s => .fatal e s
                  | .ok stop s =>
                    let s := { s with disallow_circuit_construction := false }
                    match parse_block fuel s with
                    | .fatal e s => .fatal e s
                    | .ok block s =>
                      .ok (IterationStatement.mk ident type_.1 start stop false block
                        (start_span + block.span)) s

/-- Parses a block (statement.rs, `parse_block`): an opening curly brace,
then statements until the closing brace. -/
def parse_block : Nat → ParserContext → PResult Block
  | 0, s => .fatal (ParserError.recursion_limit s.token.span) s
  | fuel + 1, s =>
    match expect Token.LeftCurly s with
    | .fatal e s => .fatal e s
    | .ok start s =>
      match parse_block_stmts fuel s with
      | .fatal e s => .fatal e s
      | .ok statements s => .ok (Block.mk statements (start + s.prev_token.span)) s

/-- The statement loop of `parse_block`: stops by consuming the closing
curly brace, otherwise parses one statement and continues. -/
def parse_block_stmts : Nat → ParserContext → PResult (List Statement)
  | 0, s => .fatal (ParserError.recursion_limit s.token.span) s
  | fuel + 1, s =>
    let (ate, s) := eat Token.RightCurly s
    if ate then .ok [] s
    else
      match parse_statement fuel s with
      | .fatal e s => .fatal e s
      | .ok st s =>
        match parse_block_stmts fuel s with
        | .fatal e s => .fatal e s
        | .ok rest s => .ok (st :: rest) s

end

/-- Modelled from the spec: the initial parser state over a token stream
(spec section 6, input contract): the cursor sits on the first token, no
diagnostics are accumulated, and the ambiguity flag starts cleared. -/
def mkContext (ts : List SpannedToken) : ParserContext :=
  match ts with
  | [] => ⟨[], ⟨Token.Eof, ⟨0, 0⟩⟩, ⟨Token.Eof, ⟨0, 0⟩⟩, false, []⟩
  | t :: rest => ⟨rest, t, ⟨Token.Eof, ⟨0, 0⟩⟩, false, []⟩

/-- A token at unit source position `i`, for concrete example streams. -/
def tk (t : Token) (i : Nat) : SpannedToken := ⟨t, ⟨i, i + 1⟩⟩

/-! Preservation lemmas: none of the cursor helpers nor the non-recursive
sub-parsers write `disallow_circuit_construction`; only
`parse_conditional_statement` and `parse_loop_statement` toggle it. -/

/-- The cursor advance does not touch the ambiguity flag. -/
theorem bump_flag (s : ParserContext) :
    (bump s).disallow_circuit_construction = s.disallow_circuit_construction := by
  unfold bump; cases s.tokens <;> rfl

/-- The cursor advance records the consumed token as previous. -/
theorem bump_prev (s : ParserContext) : (bump s).prev_token = s.token := by
  unfold bump; cases s.tokens <;> rfl

/-- The cursor advance does not touch the diagnostics accumulator. -/
theorem bump_diagnostics (s : ParserContext) :
    (bump s).diagnostics = s.diagnostics := by
  unfold bump; cases s.tokens <;> rfl

/-- The cursor helper `eat` does not touch the ambiguity flag. -/
theorem eat_flag (t : Token) (s : ParserContext) :
    (eat t s).2.disallow_circuit_construction = s.disallow_circuit_construction := by
  unfold eat; split <;> simp [bump_flag]

/-- The cursor helper `eat_any` does not touch the ambiguity flag. -/
theorem eat_any_flag (ts : List Token) (s : ParserContext) :
    (eat_any ts s).2.disallow_circuit_construction = s.disallow_circuit_construction := by
  unfold eat_any; split <;> simp [bump_flag]

/-- The cursor helper `expect` does not touch the ambiguity flag. -/
theorem expect_flag (t : Token) (s : ParserContext) :
    (expect t s).state.disallow_circuit_construction = s.disallow_circuit_construction := by
  unfold expect; split <;> simp [PResult.state, bump_flag]

/-- The cursor helper `expect_any` does not touch the ambiguity flag. -/
theorem expect_any_flag (ts : List Token) (s : ParserContext) :
    (expect_any ts s).state.disallow_circuit_construction = s.disallow_circuit_construction := by
  unfold expect_any; split <;> simp [PResult.state, bump_flag]

/-- The cursor helper `eat_identifier` does not touch the ambiguity flag. -/
theorem eat_identifier_flag (s : ParserContext) :
    (eat_identifier s).2.disallow_circuit_construction = s.disallow_circuit_construction := by
  unfold eat_identifier; split <;> simp [bump_flag]

/-- The cursor helper `expect_ident` does not touch the ambiguity flag. -/
theorem expect_ident_flag (s : ParserContext) :
    (expect_ident s).state.disallow_circuit_construction = s.disallow_circuit_construction := by
  unfold expect_ident; split <;> simp [PResult.state, bump_flag]

/-- Emitting a recoverable diagnostic does not touch the ambiguity flag. -/
theorem emit_err_flag (e : ParserError) (s : ParserContext) :
    (emit_err e s).disallow_circuit_construction = s.disallow_circuit_construction := rfl

/-- The expression parser reads the ambiguity flag but never writes it. -/
theorem parse_expression_flag (s : ParserContext) :
    (parse_expression s).state.disallow_circuit_construction =
      s.disallow_circuit_construction := by
  unfold parse_expression
  dsimp only
  split
  · simp [PResult.state, bump_flag]
  · split
    · simp [PResult.state, bump_flag]
    · split
      · cases he : expect Token.RightCurly (bump (bump s)) <;>
          · have h2 := expect_flag Token.RightCurly (bump (bump s))
            rw [he] at h2
            simp only [PResult.state] at h2 ⊢
            rw [h2, bump_flag, bump_flag]
      · simp [PResult.state, bump_flag]
  · simp [PResult.state]

/-- The conditional-expression entry point never writes the ambiguity flag. -/
theorem parse_conditional_expression_flag (s : ParserContext) :
    (parse_conditional_expression s).state.disallow_circuit_construction =
      s.disallow_circuit_construction :=
  parse_expression_flag s

/-- The non-identifier type parser does not touch the ambiguity flag. -/
theorem parse_non_ident_types_flag (s : ParserContext) :
    (parse_non_ident_types s).state.disallow_circuit_construction =
      s.disallow_circuit_construction := by
  unfold parse_non_ident_types
  cases h1 : expect_any TYPE_TOKENS s with
  | fatal e s1 =>
    have t1 := expect_any_flag TYPE_TOKENS s; rw [h1] at t1; exact t1
  | ok sp s1 =>
    have t1 := expect_any_flag TYPE_TOKENS s; rw [h1] at t1
    simpa [PResult.state] using t1

/-- The type parser does not touch the ambiguity flag. -/
theorem parse_all_types_flag (s : ParserContext) :
    (parse_all_types s).state.disallow_circuit_construction =
      s.disallow_circuit_construction := by
  unfold parse_all_types
  cases h1 : eat_identifier s with
  | mk o s1 =>
    have t1 := eat_identifier_flag s; rw [h1] at t1
    cases o with
    | some id => simpa [PResult.state] using t1
    | none =>
      dsimp only
      rw [parse_non_ident_types_flag s1]; exact t1

/-- The type-annotation entry point does not touch the ambiguity flag. -/
theorem parse_type_flag (s : ParserContext) :
    (parse_type s).state.disallow_circuit_construction =
      s.disallow_circuit_construction :=
  parse_all_types_flag s

/-- The variable-name parser does not touch the ambiguity flag. -/
theorem parse_variable_name_flag (d : Declare) (sp : Span) (s : ParserContext) :
    (parse_variable_name d sp s).state.disallow_circuit_construction =
      s.disallow_circuit_construction := by
  unfold parse_variable_name
  cases h1 : expect_ident s with
  | fatal e s1 =>
    have t1 := expect_ident_flag s; rw [h1] at t1; exact t1
  | ok name s1 =>
    have t1 := expect_ident_flag s; rw [h1] at t1
    simpa [PResult.state] using t1

/-- The return-statement parser does not touch the ambiguity flag. -/
theorem parse_return_statement_flag (s : ParserContext) :
    (parse_return_statement s).state.disallow_circuit_construction =
      s.disallow_circuit_construction := by
  unfold parse_return_statement
  cases h1 : expect Token.Return s with
  | fatal e s1 => have t1 := expect_flag Token.Return s; rw [h1] at t1; exact t1
  | ok start s1 =>
    have t1 := expect_flag Token.Return s; rw [h1] at t1
    simp only [PResult.state] at t1
    dsimp only
    cases h2 : parse_expression s1 with
    | fatal e s2 =>
      have t2 := parse_expression_flag s1; rw [h2] at t2
      simp only [PResult.state] at t2 ⊢; rw [t2, t1]
    | ok expr s2 =>
      have t2 := parse_expression_flag s1; rw [h2] at t2
      simp only [PResult.state] at t2
      dsimp only
      cases h3 : expect Token.Semicolon s2 with
      | fatal e s3 =>
        have t3 := expect_flag Token.Semicolon s2; rw [h3] at t3
        simp only [PResult.state] at t3 ⊢; rw [t3, t2, t1]
      | ok sp s3 =>
        have t3 := expect_flag Token.Semicolon s2; rw [h3] at t3
        simp only [PResult.state] at t3 ⊢; rw [t3, t2, t1]

theorem parse_assign_statement_flag (s : ParserContext) :
    (parse_assign_statement s).state.disallow_circuit_construction =
      s.disallow_circuit_construction := by
  unfold parse_assign_statement
  split
  · rename_i e s1 heq1
    have t := parse_expression_flag s; rw [heq1] at t; exact t
  · rename_i expr s1 heq1
    have t1 : s1.disallow_circuit_construction = s.disallow_circuit_construction := by
      have h := parse_expression_flag s; rw [heq1] at h; exact h
    split
    · rename_i ate s2 heq2
      have t2 : s2.disallow_circuit_construction = s1.disallow_circuit_construction := by
        have h := eat_any_flag ASSIGN_TOKENS s1; rw [heq2] at h; exact h
      split
      · split
        · rename_i e s3 heq3
          have t3 : s3.disallow_circuit_construction = s2.disallow_circuit_construction := by
            have h := parse_expression_flag s2; rw [heq3] at h; exact h
          show s3.disallow_circuit_construction = s.disallow_circuit_construction
          rw [t3, t2, t1]
        · rename_i value s3 heq3
          have t3 : s3.disallow_circuit_construction = s2.disallow_circuit_construction := by
            have h := parse_expression_flag s2; rw [heq3] at h; exact h
          split
          · show s3.disallow_circuit_construction = s.disallow_circuit_construction
            rw [t3, t2, t1]
          · split
            · rename_i e s4 heq4
              have t4 : s4.disallow_circuit_construction = s3.disallow_circuit_construction := by
                have h := expect_flag Token.Semicolon s3; rw [heq4] at h; exact h
              show s4.disallow_circuit_construction = s.disallow_circuit_construction
              rw [t4, t3, t2, t1]
            · rename_i sp s4 heq4
              have t4 : s4.disallow_circuit_construction = s3.disallow_circuit_construction := by
                have h := expect_flag Token.Semicolon s3; rw [heq4] at h; exact h
              show s4.disallow_circuit_construction = s.disallow_circuit_construction
              rw [t4, t3, t2, t1]
      · split
        · rename_i e s3 heq3
          have t3 : s3.disallow_circuit_construction = s2.disallow_circuit_construction := by
            have h := expect_flag Token.Semicolon s2; rw [heq3] at h; exact h
          show s3.disallow_circuit_construction = s.disallow_circuit_construction
          rw [t3, t2, t1]
        · rename_i sp s3 heq3
          have t3 : s3.disallow_circuit_construction = s2.disallow_circuit_construction := by
            have h := expect_flag Token.Semicolon s2; rw [heq3] at h; exact h
          show (emit_err (ParserError.expr_stmts_disallowed
              (expr.span + s3.prev_token.span)) s3).disallow_circuit_construction =
            s.disallow_circuit_construction
          rw [emit_err_flag, t3, t2, t1]

/-- The delimited-list element loop preserves the ambiguity flag whenever
the element parser does. -/
theorem parse_list_loop_flag {α σ : Type} (f : σ → ParserContext → PResult (Option α × σ))
    (hf : ∀ st p, (f st p).state.disallow_circuit_construction =
      p.disallow_circuit_construction) :
    ∀ (fuel : Nat) (st : σ) (s : ParserContext),
      (parse_list_loop f fuel st s).state.disallow_circuit_construction =
        s.disallow_circuit_construction := by
  intro fuel
  induction fuel with
  | zero => intro st s; rfl
  | succ n ih =>
    intro st s
    unfold parse_list_loop
    split
    · rfl
    · split
      · rename_i e s1 heq1
        have t := hf st s; rw [heq1] at t; exact t
      · rename_i elem st1 s1 heq1
        have t1 : s1.disallow_circuit_construction = s.disallow_circuit_construction := by
          have h := hf st s; rw [heq1] at h; exact h
        split
        · rename_i ate s2 heq2
          have t2 : s2.disallow_circuit_construction = s1.disallow_circuit_construction := by
            have h := eat_flag Token.Comma s1; rw [heq2] at h; exact h
          split
          · split
            · rename_i e s3 heq3
              have t3 : s3.disallow_circuit_construction = s2.disallow_circuit_construction := by
                have h := ih st1 s2; rw [heq3] at h; exact h
              show s3.disallow_circuit_construction = s.disallow_circuit_construction
              rw [t3, t2, t1]
            · rename_i rest st2 s3 heq3
              have t3 : s3.disallow_circuit_construction = s2.disallow_circuit_construction := by
                have h := ih st1 s2; rw [heq3] at h; exact h
              show s3.disallow_circuit_construction = s.disallow_circuit_construction
              rw [t3, t2, t1]
          · show s2.disallow_circuit_construction = s.disallow_circuit_construction
            rw [t2, t1]

/-- The delimited-list parser preserves the ambiguity flag whenever the
element parser does. -/
theorem parse_paren_comma_list_flag {α σ : Type} (fuel : Nat)
    (f : σ → ParserContext → PResult (Option α × σ)) (init : σ)
    (hf : ∀ st p, (f st p).state.disallow_circuit_construction =
      p.disallow_circuit_construction) (s : ParserContext) :
    (parse_paren_comma_list fuel f init s).state.disallow_circuit_construction =
      s.disallow_circuit_construction := by
  unfold parse_paren_comma_list
  split
  · rename_i e s1 heq1
    have t := expect_flag Token.LeftParen s; rw [heq1] at t; exact t
  · rename_i open_span s1 heq1
    have t1 : s1.disallow_circuit_construction = s.disallow_circuit_construction := by
      have h := expect_flag Token.LeftParen s; rw [heq1] at h; exact h
    split
    · rename_i e s2 heq2
      have t2 : s2.disallow_circuit_construction = s1.disallow_circuit_construction := by
        have h := parse_list_loop_flag f hf fuel init s1; rw [heq2] at h; exact h
      show s2.disallow_circuit_construction = s.disallow_circuit_construction
      rw [t2, t1]
    · rename_i elems st s2 heq2
      have t2 : s2.disallow_circuit_construction = s1.disallow_circuit_construction := by
        have h := parse_list_loop_flag f hf fuel init s1; rw [heq2] at h; exact h
      split
      · rename_i e s3 heq3
        have t3 : s3.disallow_circuit_construction = s2.disallow_circuit_construction := by
          have h := expect_flag Token.RightParen s2; rw [heq3] at h; exact h
        show s3.disallow_circuit_construction = s.disallow_circuit_construction
        rw [t3, t2, t1]
      · rename_i close_span s3 heq3
        have t3 : s3.disallow_circuit_construction = s2.disallow_circuit_construction := by
          have h := expect_flag Token.RightParen s2; rw [heq3] at h; exact h
        show s3.disallow_circuit_construction = s.disallow_circuit_construction
        rw [t3, t2, t1]

/-- The console-argument element closure does not touch the ambiguity
flag. -/
theorem console_args_elem_flag (st : Option (List Char)) (p : ParserContext) :
    ((match st with
      | none =>
        let p' := bump p
        match p'.prev_token.token with
        | Token.StringLit chars => PResult.ok ((none : Option Expression), some chars) p'
        | t =>
          let p'' := emit_err (ParserError.unexpected_str t "formatted string"
            p'.prev_token.span) p'
          PResult.ok ((none : Option Expression), some ([] : List Char)) p''
      | some _ =>
        match parse_expression p with
        | .fatal e p' => .fatal e p'
        | .ok e p' => PResult.ok (some e, st) p') :
        PResult (Option Expression × Option (List Char))).state.disallow_circuit_construction =
      p.disallow_circuit_construction := by
  cases st with
  | none =>
    dsimp only
    split <;> simp [PResult.state, emit_err_flag, bump_flag]
  | some chars =>
    dsimp only
    split
    · rename_i e p1 heq1
      have t := parse_expression_flag p; rw [heq1] at t; exact t
    · rename_i e p1 heq1
      have t : p1.disallow_circuit_construction = p.disallow_circuit_construction := by
        have h := parse_expression_flag p; rw [heq1] at h; exact h
      exact t

/-- The console-argument parser does not touch the ambiguity flag. -/
theorem parse_console_args_flag (fuel : Nat) (s : ParserContext) :
    (parse_console_args fuel s).state.disallow_circuit_construction =
      s.disallow_circuit_construction := by
  unfold parse_console_args
  split
  · rename_i e s1 heq1
    have t := parse_paren_comma_list_flag fuel _ none (fun st p => console_args_elem_flag st p) s
    rw [heq1] at t; exact t
  · rename_i parameters string span s1 heq1
    have t : s1.disallow_circuit_construction = s.disallow_circuit_construction := by
      have h := parse_paren_comma_list_flag fuel _ none
        (fun st p => console_args_elem_flag st p) s
      rw [heq1] at h; exact h
    exact t

/-- The final semicolon-and-build step of the console-statement parser
preserves the ambiguity flag of the state carried by its input result. -/
theorem console_finish_flag (keyword : Span) (r : PResult ConsoleFunction) :
    ((match r with
      | .fatal e s => PResult.fatal e s
      | .ok fn s =>
        match expect Token.Semicolon s with
        | .fatal e s => PResult.fatal e s
        | .ok _ s => PResult.ok (⟨fn, keyword + fn.span⟩ : ConsoleStatement) s) :
      PResult ConsoleStatement).state.disallow_circuit_construction =
      r.state.disallow_circuit_construction := by
  cases r with
  | fatal e s4 => rfl
  | ok fn s4 =>
    dsimp only
    split
    · rename_i e s5 heq5
      have t : s5.disallow_circuit_construction = s4.disallow_circuit_construction := by
        have h := expect_flag Token.Semicolon s4; rw [heq5] at h; exact h
      exact t
    · rename_i sp s5 heq5
      have t : s5.disallow_circuit_construction = s4.disallow_circuit_construction := by
        have h := expect_flag Token.Semicolon s4; rw [heq5] at h; exact h
      exact t

/-- The console-statement parser does not touch the ambiguity flag. -/
theorem parse_console_statement_flag (fuel : Nat) (s : ParserContext) :
    (parse_console_statement fuel s).state.disallow_circuit_construction =
      s.disallow_circuit_construction := by
  unfold parse_console_statement
  split
  · rename_i e s1 heq1
    have t := expect_flag Token.Console s; rw [heq1] at t; exact t
  · rename_i keyword s1 heq1
    have t1 : s1.disallow_circuit_construction = s.disallow_circuit_construction := by
      have h := expect_flag Token.Console s; rw [heq1] at h; exact h
    split
    · rename_i e s2 heq2
      have t : s2.disallow_circuit_construction = s1.disallow_circuit_construction := by
        have h := expect_flag Token.Dot s1; rw [heq2] at h; exact h
      show s2.disallow_circuit_construction = s.disallow_circuit_construction
      rw [t, t1]
    · rename_i sp2 s2 heq2
      have t2 : s2.disallow_circuit_construction = s1.disallow_circuit_construction := by
        have h := expect_flag Token.Dot s1; rw [heq2] at h; exact h
      split
      · rename_i e s3 heq3
        have t : s3.disallow_circuit_construction = s2.disallow_circuit_construction := by
          have h := expect_ident_flag s2; rw [heq3] at h; exact h
        show s3.disallow_circuit_construction = s.disallow_circuit_construction
        rw [t, t2, t1]
      · rename_i function s3 heq3
        have t3 : s3.disallow_circuit_construction = s2.disallow_circuit_construction := by
          have h := expect_ident_flag s2; rw [heq3] at h; exact h
        have goal3 : s3.disallow_circuit_construction = s.disallow_circuit_construction := by
          rw [t3, t2, t1]
        dsimp only
        refine Eq.trans (console_finish_flag keyword _) ?_
        by_cases hA : function.name = "assert"
        · rw [if_pos hA]
          split
          · rename_i e s4 heq4
            have t : s4.disallow_circuit_construction = s3.disallow_circuit_construction := by
              have h := expect_flag Token.LeftParen s3; rw [heq4] at h; exact h
            show s4.disallow_circuit_construction = s.disallow_circuit_construction
            rw [t]; exact goal3
          · rename_i sp4 s4 heq4
            have t4 : s4.disallow_circuit_construction = s3.disallow_circuit_construction := by
              have h := expect_flag Token.LeftParen s3; rw [heq4] at h; exact h
            split
            · rename_i e s5 heq5
              have t : s5.disallow_circuit_construction = s4.disallow_circuit_construction := by
                have h := parse_expression_flag s4; rw [heq5] at h; exact h
              show s5.disallow_circuit_construction = s.disallow_circuit_construction
              rw [t, t4]; exact goal3
            · rename_i expr s5 heq5
              have t5 : s5.disallow_circuit_construction = s4.disallow_circuit_construction := by
                have h := parse_expression_flag s4; rw [heq5] at h; exact h
              split
              · rename_i e s6 heq6
                have t : s6.disallow_circuit_construction = s5.disallow_circuit_construction := by
                  have h := expect_flag Token.RightParen s5; rw [heq6] at h; exact h
                show s6.disallow_circuit_construction = s.disallow_circuit_construction
                rw [t, t5, t4]; exact goal3
              · rename_i sp6 s6 heq6
                have t : s6.disallow_circuit_construction = s5.disallow_circuit_construction := by
                  have h := expect_flag Token.RightParen s5; rw [heq6] at h; exact h
                show s6.disallow_circuit_construction = s.disallow_circuit_construction
                rw [t, t5, t4]; exact goal3
        · rw [if_neg hA]
          by_cases hB : function.name = "error"
          · rw [if_pos hB]
            split
            · rename_i e s4 heq4
              have t : s4.disallow_circuit_construction = s3.disallow_circuit_construction := by
                have h := parse_console_args_flag fuel s3; rw [heq4] at h; exact h
              show s4.disallow_circuit_construction = s.disallow_circuit_construction
              rw [t]; exact goal3
            · rename_i args s4 heq4
              have t : s4.disallow_circuit_construction = s3.disallow_circuit_construction := by
                have h := parse_console_args_flag fuel s3; rw [heq4] at h; exact h
              show s4.disallow_circuit_construction = s.disallow_circuit_construction
              rw [t]; exact goal3
          · rw [if_neg hB]
            by_cases hC : function.name = "log"
            · rw [if_pos hC]
              split
              · rename_i e s4 heq4
                have t : s4.disallow_circuit_construction = s3.disallow_circuit_construction := by
                  have h := parse_console_args_flag fuel s3; rw [heq4] at h; exact h
                show s4.disallow_circuit_construction = s.disallow_circuit_construction
                rw [t]; exact goal3
              · rename_i args s4 heq4
                have t : s4.disallow_circuit_construction = s3.disallow_circuit_construction := by
                  have h := parse_console_args_flag fuel s3; rw [heq4] at h; exact h
                show s4.disallow_circuit_construction = s.disallow_circuit_construction
                rw [t]; exact goal3
            · rw [if_neg hC]
              split
              · rename_i e s4 heq4
                have t : s4.disallow_circuit_construction =
                    (emit_err (ParserError.unexpected_ident function.name
                      ["assert", "error", "log"] function.span) s3).disallow_circuit_construction := by
                  have h := parse_console_args_flag fuel
                    (emit_err (ParserError.unexpected_ident function.name
                      ["assert", "error", "log"] function.span) s3)
                  rw [heq4] at h; exact h
                show s4.disallow_circuit_construction = s.disallow_circuit_construction
                rw [t, emit_err_flag]; exact goal3
              · rename_i args s4 heq4
                have t : s4.disallow_circuit_construction =
                    (emit_err (ParserError.unexpected_ident function.name
                      ["assert", "error", "log"] function.span) s3).disallow_circuit_construction := by
                  have h := parse_console_args_flag fuel
                    (emit_err (ParserError.unexpected_ident function.name
                      ["assert", "error", "log"] function.span) s3)
                  rw [heq4] at h; exact h
                show s4.disallow_circuit_construction = s.disallow_circuit_construction
                rw [t, emit_err_flag]; exact goal3


/-- The variable-name element closure of the definition-statement parser
does not touch the ambiguity flag. -/
theorem variable_name_elem_flag (decl_type : Declare) (decl_span : Span)
    (_u : Unit) (p : ParserContext) :
    ((match parse_variable_name decl_type decl_span p with
      | .fatal e p => PResult.fatal e p
      | .ok v p => PResult.ok ((some v : Option VariableName), ()) p) :
      PResult (Option VariableName × Unit)).state.disallow_circuit_construction =
      p.disallow_circuit_construction := by
  split
  · rename_i e p1 heq1
    have t := parse_variable_name_flag decl_type decl_span p; rw [heq1] at t; exact t
  · rename_i v p1 heq1
    have t : p1.disallow_circuit_construction = p.disallow_circuit_construction := by
      have h := parse_variable_name_flag decl_type decl_span p; rw [heq1] at h; exact h
    exact t

/-- The tail of the definition-statement parser (type annotation,
initializer, terminator) preserves the ambiguity flag of the state carried
by its input result. -/
theorem definition_finish_flag (decl_type : Declare) (decl_span : Span)
    (r : PResult (List VariableName)) :
    ((match r with
      | .fatal e s => PResult.fatal e s
      | .ok variable_names s =>
        match expect Token.Colon s with
        | .fatal e s => PResult.fatal e s
        | .ok _ s =>
          match parse_type s with
          | .fatal e s => PResult.fatal e s
          | .ok type_ s =>
            match expect Token.Assign s with
            | .fatal e s => PResult.fatal e s
            | .ok _ s =>
              match parse_expression s with
              | .fatal e s => PResult.fatal e s
              | .ok expr s =>
                match expect Token.Semicolon s with
                | .fatal e s => PResult.fatal e s
                | .ok _ s =>
                  PResult.ok (⟨decl_type, variable_names, type_.1, expr,
                    decl_span + expr.span⟩ : DefinitionStatement) s) :
      PResult DefinitionStatement).state.disallow_circuit_construction =
      r.state.disallow_circuit_construction := by
  cases r with
  | fatal e s2 => rfl
  | ok variable_names s2 =>
    dsimp only
    split
    · rename_i e s3 heq3
      have t : s3.disallow_circuit_construction = s2.disallow_circuit_construction := by
        have h := expect_flag Token.Colon s2; rw [heq3] at h; exact h
      exact t
    · rename_i sp3 s3 heq3
      have t3 : s3.disallow_circuit_construction = s2.disallow_circuit_construction := by
        have h := expect_flag Token.Colon s2; rw [heq3] at h; exact h
      split
      · rename_i e s4 heq4
        have t : s4.disallow_circuit_construction = s3.disallow_circuit_construction := by
          have h := parse_type_flag s3; rw [heq4] at h; exact h
        show s4.disallow_circuit_construction = s2.disallow_circuit_construction
        rw [t, t3]
      · rename_i type_ s4 heq4
        have t4 : s4.disallow_circuit_construction = s3.disallow_circuit_construction := by
          have h := parse_type_flag s3; rw [heq4] at h; exact h
        split
        · rename_i e s5 heq5
          have t : s5.disallow_circuit_construction = s4.disallow_circuit_construction := by
            have h := expect_flag Token.Assign s4; rw [heq5] at h; exact h
          show s5.disallow_circuit_construction = s2.disallow_circuit_construction
          rw [t, t4, t3]
        · rename_i sp5 s5 heq5
          have t5 : s5.disallow_circuit_construction = s4.disallow_circuit_construction := by
            have h := expect_flag Token.Assign s4; rw [heq5] at h; exact h
          split
          · rename_i e s6 heq6
            have t : s6.disallow_circuit_construction = s5.disallow_circuit_construction := by
              have h := parse_expression_flag s5; rw [heq6] at h; exact h
            show s6.disallow_circuit_construction = s2.disallow_circuit_construction
            rw [t, t5, t4, t3]
          · rename_i expr s6 heq6
            have t6 : s6.disallow_circuit_construction = s5.disallow_circuit_construction := by
              have h := parse_expression_flag s5; rw [heq6] at h; exact h
            split
            · rename_i e s7 heq7
              have t : s7.disallow_circuit_construction = s6.disallow_circuit_construction := by
                have h := expect_flag Token.Semicolon s6; rw [heq7] at h; exact h
              show s7.disallow_circuit_construction = s2.disallow_circuit_construction
              rw [t, t6, t5, t4, t3]
            · rename_i sp7 s7 heq7
              have t : s7.disallow_circuit_construction = s6.disallow_circuit_construction := by
                have h := expect_flag Token.Semicolon s6; rw [heq7] at h; exact h
              show s7.disallow_circuit_construction = s2.disallow_circuit_construction
              rw [t, t6, t5, t4, t3]

/-- The definition-statement parser does not touch the ambiguity flag. -/
theorem parse_definition_statement_flag (fuel : Nat) (s : ParserContext) :
    (parse_definition_statement fuel s).state.disallow_circuit_construction =
      s.disallow_circuit_construction := by
  unfold parse_definition_statement
  split
  · rename_i e s1 heq1
    have t := expect_any_flag [Token.Let, Token.Const] s; rw [heq1] at t; exact t
  · rename_i sp1 s1 heq1
    have t1 : s1.disallow_circuit_construction = s.disallow_circuit_construction := by
      have h := expect_any_flag [Token.Let, Token.Const] s; rw [heq1] at h; exact h
    dsimp only
    refine Eq.trans (definition_finish_flag _ _ _) ?_
    split
    · split
      · rename_i e s2 heq2
        have t : s2.disallow_circuit_construction = s1.disallow_circuit_construction := by
          have h := parse_paren_comma_list_flag fuel _ ()
            (fun _u p => variable_name_elem_flag
              (match s1.prev_token.token with
               | Token.Let => Declare.Let
               | Token.Const => Declare.Const
               | _ => Declare.Let)
              s1.prev_token.span _u p) s1
          rw [heq2] at h; exact h
        show s2.disallow_circuit_construction = s.disallow_circuit_construction
        rw [t, t1]
      · rename_i vars u sp2 s2 heq2
        have t2 : s2.disallow_circuit_construction = s1.disallow_circuit_construction := by
          have h := parse_paren_comma_list_flag fuel _ ()
            (fun _u p => variable_name_elem_flag
              (match s1.prev_token.token with
               | Token.Let => Declare.Let
               | Token.Const => Declare.Const
               | _ => Declare.Let)
              s1.prev_token.span _u p) s1
          rw [heq2] at h; exact h
        split
        · rename_i v
          show (emit_err (ParserError.invalid_parens_around_single_variable
              v.span) s2).disallow_circuit_construction = s.disallow_circuit_construction
          rw [emit_err_flag, t2, t1]
        · show s2.disallow_circuit_construction = s.disallow_circuit_construction
          rw [t2, t1]
    · split
      · rename_i e s2 heq2
        have t : s2.disallow_circuit_construction = s1.disallow_circuit_construction := by
          have h := parse_variable_name_flag
            (match s1.prev_token.token with
             | Token.Let => Declare.Let
             | Token.Const => Declare.Const
             | _ => Declare.Let)
            s1.prev_token.span s1
          rw [heq2] at h; exact h
        show s2.disallow_circuit_construction = s.disallow_circuit_construction
        rw [t, t1]
      · rename_i v s2 heq2
        have t : s2.disallow_circuit_construction = s1.disallow_circuit_construction := by
          have h := parse_variable_name_flag
            (match s1.prev_token.token with
             | Token.Let => Declare.Let
             | Token.Const => Declare.Const
             | _ => Declare.Let)
            s1.prev_token.span s1
          rw [heq2] at h; exact h
        show s2.disallow_circuit_construction = s.disallow_circuit_construction
        rw [t, t1]


/-- Key invariant behind the `disallow_circuit_construction` scoping: every
successful conditional or loop parse returns with the flag cleared, and the
statement, block, and block-loop parsers preserve a cleared flag.  Proved by
induction on the recursion fuel across the mutually recursive parsers. -/
theorem parsers_restore_flag : ∀ fuel : Nat,
    (∀ s r s', parse_conditional_statement fuel s = .ok r s' →
      s'.disallow_circuit_construction = false) ∧
    (∀ s r s', parse_loop_statement fuel s = .ok r s' →
      s'.disallow_circuit_construction = false) ∧
    (∀ s r s', s.disallow_circuit_construction = false →
      parse_statement fuel s = .ok r s' → s'.disallow_circuit_construction = false) ∧
    (∀ s r s', s.disallow_circuit_construction = false →
      parse_block fuel s = .ok r s' → s'.disallow_circuit_construction = false) ∧
    (∀ s r s', s.disallow_circuit_construction = false →
      parse_block_stmts fuel s = .ok r s' → s'.disallow_circuit_construction = false) := by
  intro fuel
  induction fuel with
  | zero =>
    refine ⟨?_, ?_, ?_, ?_, ?_⟩
    · intro s r s' h
      simp only [parse_conditional_statement] at h
      exact PResult.noConfusion h
    · intro s r s' h
      simp only [parse_loop_statement] at h
      exact PResult.noConfusion h
    · intro s r s' _ h
      simp only [parse_statement] at h
      exact PResult.noConfusion h
    · intro s r s' _ h
      simp only [parse_block] at h
      exact PResult.noConfusion h
    · intro s r s' _ h
      simp only [parse_block_stmts] at h
      exact PResult.noConfusion h
  | succ n ih =>
    obtain ⟨ihc, ihl, ihs, ihb, ihbs⟩ := ih
    refine ⟨?_, ?_, ?_, ?_, ?_⟩
    · -- parse_conditional_statement
      intro s r s' h
      simp only [parse_conditional_statement] at h
      split at h
      · exact PResult.noConfusion h
      · rename_i start s1 heq1
        split at h
        · exact PResult.noConfusion h
        · rename_i expr s3 heq3
          split at h
          · exact PResult.noConfusion h
          · rename_i body s4 heq4
            have t4 : s4.disallow_circuit_construction = false :=
              ihb _ _ _ rfl heq4
            cases heq5 : eat Token.Else s4 with
            | mk ate s5 =>
              rw [heq5] at h
              have t5 : s5.disallow_circuit_construction = false := by
                have h' : s5.disallow_circuit_construction =
                    s4.disallow_circuit_construction := by
                  have h'' := eat_flag Token.Else s4; rw [heq5] at h''; exact h''
                rw [h']; exact t4
              dsimp only at h
              cases ate
              · rw [if_neg Bool.false_ne_true] at h
                cases h
                exact t5
              · rw [if_pos rfl] at h
                split at h
                · exact PResult.noConfusion h
                · rename_i st s6 heq6
                  have t6 : s6.disallow_circuit_construction = false :=
                    ihs _ _ _ t5 heq6
                  cases h
                  cases st <;> exact t6
    · -- parse_loop_statement
      intro s r s' h
      simp only [parse_loop_statement] at h
      split at h
      · exact PResult.noConfusion h
      · rename_i start_span s1 heq1
        split at h
        · exact PResult.noConfusion h
        · rename_i ident s2 heq2
          split at h
          · exact PResult.noConfusion h
          · rename_i sp3 s3 heq3
            split at h
            · exact PResult.noConfusion h
            · rename_i type_ s4 heq4
              split at h
              · exact PResult.noConfusion h
              · rename_i sp5 s5 heq5
                split at h
                · exact PResult.noConfusion h
                · rename_i start s6 heq6
                  split at h
                  · exact PResult.noConfusion h
                  · rename_i sp7 s7 heq7
                    split at h
                    · exact PResult.noConfusion h
                    · rename_i stop s8 heq8
                      split at h
                      · exact PResult.noConfusion h
                      · rename_i block s9 heq9
                        have t9 : s9.disallow_circuit_construction = false :=
                          ihb _ _ _ rfl heq9
                        cases h
                        exact t9
    · -- parse_statement
      intro s r s' hflag h
      simp only [parse_statement] at h
      split at h
      · split at h
        · exact PResult.noConfusion h
        · rename_i r1 s1 heq1
          have t1 : s1.disallow_circuit_construction = s.disallow_circuit_construction := by
            have h' := parse_return_statement_flag s; rw [heq1] at h'; exact h'
          cases h
          rw [t1]; exact hflag
      · split at h
        · exact PResult.noConfusion h
        · rename_i c1 s1 heq1
          cases h
          exact ihc _ _ _ heq1
      · split at h
        · exact PResult.noConfusion h
        · rename_i i1 s1 heq1
          cases h
          exact ihl _ _ _ heq1
      · split at h
        · exact PResult.noConfusion h
        · rename_i c1 s1 heq1
          have t1 : s1.disallow_circuit_construction = s.disallow_circuit_construction := by
            have h' := parse_console_statement_flag n s; rw [heq1] at h'; exact h'
          cases h
          rw [t1]; exact hflag
      · split at h
        · exact PResult.noConfusion h
        · rename_i d1 s1 heq1
          have t1 : s1.disallow_circuit_construction = s.disallow_circuit_construction := by
            have h' := parse_definition_statement_flag n s; rw [heq1] at h'; exact h'
          cases h
          rw [t1]; exact hflag
      · split at h
        · exact PResult.noConfusion h
        · rename_i d1 s1 heq1
          have t1 : s1.disallow_circuit_construction = s.disallow_circuit_construction := by
            have h' := parse_definition_statement_flag n s; rw [heq1] at h'; exact h'
          cases h
          rw [t1]; exact hflag
      · split at h
        · exact PResult.noConfusion h
        · rename_i b1 s1 heq1
          cases h
          exact ihb _ _ _ hflag heq1
      · have t1 : s'.disallow_circuit_construction = s.disallow_circuit_construction := by
          have h' := parse_assign_statement_flag s; rw [h] at h'; exact h'
        rw [t1]; exact hflag
    · -- parse_block
      intro s r s' hflag h
      simp only [parse_block] at h
      split at h
      · exact PResult.noConfusion h
      · rename_i start s1 heq1
        have t1 : s1.disallow_circuit_construction = false := by
          have h' : s1.disallow_circuit_construction =
              s.disallow_circuit_construction := by
            have h'' := expect_flag Token.LeftCurly s; rw [heq1] at h''; exact h''
          rw [h']; exact hflag
        split at h
        · exact PResult.noConfusion h
        · rename_i statements s2 heq2
          have t2 : s2.disallow_circuit_construction = false :=
            ihbs _ _ _ t1 heq2
          cases h
          exact t2
    · -- parse_block_stmts
      intro s r s' hflag h
      simp only [parse_block_stmts] at h
      cases heq1 : eat Token.RightCurly s with
      | mk ate s1 =>
        rw [heq1] at h
        have t1 : s1.disallow_circuit_construction = false := by
          have h' : s1.disallow_circuit_construction =
              s.disallow_circuit_construction := by
            have h'' := eat_flag Token.RightCurly s; rw [heq1] at h''; exact h''
          rw [h']; exact hflag
        dsimp only at h
        cases ate
        · rw [if_neg Bool.false_ne_true] at h
          split at h
          · exact PResult.noConfusion h
          · rename_i st s2 heq2
            have t2 : s2.disallow_circuit_construction = false :=
              ihs _ _ _ t1 heq2
            split at h
            · exact PResult.noConfusion h
            · rename_i rest s3 heq3
              have t3 : s3.disallow_circuit_construction = false :=
                ihbs _ _ _ t2 heq3
              cases h
              exact t3
        · rw [if_pos rfl] at h
          cases h
          exact t1

/-- Inversion of a successful `expect`. -/
theorem expect_eq_ok {t : Token} {s : ParserContext} {sp : Span} {s' : ParserContext}
    (h : expect t s = .ok sp s') :
    sp = s.token.span ∧ s' = bump s ∧ s.token.token = t := by
  unfold expect at h
  split at h
  · rename_i hc
    injection h with h1 h2
    exact ⟨h1.symm, h2.symm, hc⟩
  · exact PResult.noConfusion h

/-- Inversion of a successful `expect_any`. -/
theorem expect_any_eq_ok {ts : List Token} {s : ParserContext} {sp : Span}
    {s' : ParserContext} (h : expect_any ts s = .ok sp s') :
    sp = s.token.span ∧ s' = bump s ∧ s.token.token ∈ ts := by
  unfold expect_any at h
  split at h
  · rename_i hc
    injection h with h1 h2
    exact ⟨h1.symm, h2.symm, hc⟩
  · exact PResult.noConfusion h

/-- Every iteration statement a successful loop parse returns carries
`inclusive = false`: the only construction site initializes the field to
`false`. -/
theorem loop_inclusive_false :
    ∀ (fuel : Nat) (s : ParserContext) (it : IterationStatement) (s' : ParserContext),
      parse_loop_statement fuel s = .ok it s' → it.inclusive = false := by
  intro fuel s it s' h
  cases fuel with
  | zero =>
    simp only [parse_loop_statement] at h
    exact PResult.noConfusion h
  | succ n =>
    simp only [parse_loop_statement] at h
    split at h
    · exact PResult.noConfusion h
    · split at h
      · exact PResult.noConfusion h
      · split at h
        · exact PResult.noConfusion h
        · split at h
          · exact PResult.noConfusion h
          · split at h
            · exact PResult.noConfusion h
            · split at h
              · exact PResult.noConfusion h
              · split at h
                · exact PResult.noConfusion h
                · split at h
                  · exact PResult.noConfusion h
                  · split at h
                    · exact PResult.noConfusion h
                    · cases h
                      rfl

/-- Example stream for C8: `for i : u32 in 0 .. 10 { }`. -/
def c8_ctx : ParserContext := mkContext
  [tk Token.For 0, tk (Token.Ident "i") 1, tk Token.Colon 2, tk Token.U32 3,
   tk Token.In 4, tk (Token.Int 0) 5, tk Token.DotDot 6, tk (Token.Int 10) 7,
   tk Token.LeftCurly 8, tk Token.RightCurly 9]

/-- C8: Every IterationStatement returned by parse_loop_statement has its
inclusive flag equal to false, for every accepted input; in particular
`for i : u32 in 0..10 { }` produces an IterationStatement with
inclusive = false, start the literal 0, and stop the literal 10. -/
theorem claim8_iteration_exclusive :
    (∀ (fuel : Nat) (s : ParserContext),
      ((parse_loop_statement fuel s).getOk.all fun it => !it.inclusive) = true) ∧
    ((parse_loop_statement 8 c8_ctx).getOk.map
      fun it => (it.inclusive, it.start, it.stop)) =
      some (false, Expression.value 0 ⟨5, 6⟩, Expression.value 10 ⟨7, 8⟩) ∧
    (parse_loop_statement 8 c8_ctx).isOk = true := by
  refine ⟨?_, rfl, rfl⟩
  intro fuel s
  cases hr : parse_loop_statement fuel s with
  | fatal e s' => rfl
  | ok it s' =>
    have hinc := loop_inclusive_false fuel s it s' hr
    simp [PResult.getOk, Option.all, hinc]

/-- C9: Type parsing maps each of the fixed closed set of primitive-type
tokens 1:1 to the corresponding Type variant, and maps any other bare
identifier token to a user-defined Type.Identifier reference without
validating that the name exists. -/
theorem claim9_type_token_mapping :
    ∀ (sp : Span) (rest : List SpannedToken) (prev : SpannedToken)
      (flag : Bool) (d : List ParserError),
      (parse_all_types ⟨rest, ⟨Token.I8, sp⟩, prev, flag, d⟩ =
        .ok (Ty.IntegerType IntegerType.I8, sp) (bump ⟨rest, ⟨Token.I8, sp⟩, prev, flag, d⟩)) ∧
      (parse_all_types ⟨rest, ⟨Token.I16, sp⟩, prev, flag, d⟩ =
        .ok (Ty.IntegerType IntegerType.I16, sp) (bump ⟨rest, ⟨Token.I16, sp⟩, prev, flag, d⟩)) ∧
      (parse_all_types ⟨rest, ⟨Token.I32, sp⟩, prev, flag, d⟩ =
        .ok (Ty.IntegerType IntegerType.I32, sp) (bump ⟨rest, ⟨Token.I32, sp⟩, prev, flag, d⟩)) ∧
      (parse_all_types ⟨rest, ⟨Token.I64, sp⟩, prev, flag, d⟩ =
        .ok (Ty.IntegerType IntegerType.I64, sp) (bump ⟨rest, ⟨Token.I64, sp⟩, prev, flag, d⟩)) ∧
      (parse_all_types ⟨rest, ⟨Token.I128, sp⟩, prev, flag, d⟩ =
        .ok (Ty.IntegerType IntegerType.I128, sp) (bump ⟨rest, ⟨Token.I128, sp⟩, prev, flag, d⟩)) ∧
      (parse_all_types ⟨rest, ⟨Token.U8, sp⟩, prev, flag, d⟩ =
        .ok (Ty.IntegerType IntegerType.U8, sp) (bump ⟨rest, ⟨Token.U8, sp⟩, prev, flag, d⟩)) ∧
      (parse_all_types ⟨rest, ⟨Token.U16, sp⟩, prev, flag, d⟩ =
        .ok (Ty.IntegerType IntegerType.U16, sp) (bump ⟨rest, ⟨Token.U16, sp⟩, prev, flag, d⟩)) ∧
      (parse_all_types ⟨rest, ⟨Token.U32, sp⟩, prev, flag, d⟩ =
        .ok (Ty.IntegerType IntegerType.U32, sp) (bump ⟨rest, ⟨Token.U32, sp⟩, prev, flag, d⟩)) ∧
      (parse_all_types ⟨rest, ⟨Token.U64, sp⟩, prev, flag, d⟩ =
        .ok (Ty.IntegerType IntegerType.U64, sp) (bump ⟨rest, ⟨Token.U64, sp⟩, prev, flag, d⟩)) ∧
      (parse_all_types ⟨rest, ⟨Token.U128, sp⟩, prev, flag, d⟩ =
        .ok (Ty.IntegerType IntegerType.U128, sp) (bump ⟨rest, ⟨Token.U128, sp⟩, prev, flag, d⟩)) ∧
      (parse_all_types ⟨rest, ⟨Token.Field, sp⟩, prev, flag, d⟩ =
        .ok (Ty.Field, sp) (bump ⟨rest, ⟨Token.Field, sp⟩, prev, flag, d⟩)) ∧
      (parse_all_types ⟨rest, ⟨Token.Group, sp⟩, prev, flag, d⟩ =
        .ok (Ty.Group, sp) (bump ⟨rest, ⟨Token.Group, sp⟩, prev, flag, d⟩)) ∧
      (parse_all_types ⟨rest, ⟨Token.Address, sp⟩, prev, flag, d⟩ =
        .ok (Ty.Address, sp) (bump ⟨rest, ⟨Token.Address, sp⟩, prev, flag, d⟩)) ∧
      (parse_all_types ⟨rest, ⟨Token.Bool, sp⟩, prev, flag, d⟩ =
        .ok (Ty.Boolean, sp) (bump ⟨rest, ⟨Token.Bool, sp⟩, prev, flag, d⟩)) ∧
      (parse_all_types ⟨rest, ⟨Token.Char, sp⟩, prev, flag, d⟩ =
        .ok (Ty.Char, sp) (bump ⟨rest, ⟨Token.Char, sp⟩, prev, flag, d⟩)) ∧
      (∀ name : String,
        parse_all_types ⟨rest, ⟨Token.Ident name, sp⟩, prev, flag, d⟩ =
          .ok (Ty.Identifier ⟨name, sp⟩, sp)
            (bump ⟨rest, ⟨Token.Ident name, sp⟩, prev, flag, d⟩)) := by
  intro sp rest prev flag d
  and_intros <;> (intros; cases rest <;> rfl)

/-- C10: parse_console_args on an empty parenthesized argument list succeeds
with an empty format string and no interpolation parameters, and emits no
diagnostic at all. -/
theorem claim10_empty_console_args :
    ∀ (fuel : Nat) (sp1 sp2 : Span) (rest : List SpannedToken) (prev : SpannedToken)
      (flag : Bool) (d : List ParserError),
      (parse_console_args (fuel + 1)
        ⟨⟨Token.RightParen, sp2⟩ :: rest, ⟨Token.LeftParen, sp1⟩, prev, flag, d⟩ =
        .ok ⟨[], sp1 + sp2, []⟩
          (bump (bump ⟨⟨Token.RightParen, sp2⟩ :: rest,
            ⟨Token.LeftParen, sp1⟩, prev, flag, d⟩))) ∧
      (bump (bump ⟨⟨Token.RightParen, sp2⟩ :: rest,
        ⟨Token.LeftParen, sp1⟩, prev, flag, d⟩)).diagnostics = d := by
  intro fuel sp1 sp2 rest prev flag d
  constructor
  · rfl
  · cases rest <;> rfl

/-- Example stream for C1: `if ;` — the condition expression parse fails. -/
def c1_ctx_bad : ParserContext := mkContext [tk Token.If 0, tk Token.Semicolon 1]

/-- Example stream for C1: `if c { }`. -/
def c1_ctx_ok : ParserContext := mkContext
  [tk Token.If 0, tk (Token.Ident "c") 1, tk Token.LeftCurly 2, tk Token.RightCurly 3]

/-- Example stream for C1: `for i : u32 in 0 .. ;` — the stop expression
parse fails. -/
def c1_ctx_for_bad : ParserContext := mkContext
  [tk Token.For 0, tk (Token.Ident "i") 1, tk Token.Colon 2, tk Token.U32 3,
   tk Token.In 4, tk (Token.Int 0) 5, tk Token.DotDot 6, tk Token.Semicolon 7]

/-- C1 counterexample: when the condition expression parse of a conditional
statement returns a fatal error, the propagated parser state still has
`disallow_circuit_construction = true` — the error path DOES leave the flag
set, contradicting the claim. -/
theorem claim1_counterexample :
    (parse_conditional_statement 8 c1_ctx_bad).isFatal = true ∧
    (parse_conditional_statement 8 c1_ctx_bad).state.disallow_circuit_construction = true :=
  ⟨rfl, rfl⟩

/-- C1 (amended): the `disallow_circuit_construction` flag is set during the
condition / stop expression parse and cleared immediately after a successful
expression parse, so every successfully returned conditional or loop parse
ends with the flag false; when the expression parse returns a fatal error the
error propagates with the flag still set to true.  The third conjunct shows
the flag active during the condition parse: in `if c { }` the brace after
`c` is left to the block instead of starting a circuit-construction
expression. -/
theorem claim1_amended_flag_scoping :
    (∀ (fuel : Nat) (s : ParserContext),
      ((parse_conditional_statement fuel s).okState.all
        fun st => !st.disallow_circuit_construction) = true) ∧
    (∀ (fuel : Nat) (s : ParserContext),
      ((parse_loop_statement fuel s).okState.all
        fun st => !st.disallow_circuit_construction) = true) ∧
    ((parse_conditional_statement 8 c1_ctx_ok).getOk.map
      fun c => (c.condition, c.block.statements, c.next.isNone)) =
      some (Expression.identifier ⟨"c", ⟨1, 2⟩⟩, ([] : List Statement), true) ∧
    (parse_conditional_statement 8 c1_ctx_ok).state.disallow_circuit_construction = false ∧
    (parse_loop_statement 8 c1_ctx_for_bad).isFatal = true ∧
    (parse_loop_statement 8 c1_ctx_for_bad).state.disallow_circuit_construction = true := by
  refine ⟨?_, ?_, rfl, rfl, rfl, rfl⟩
  · intro fuel s
    cases hr : parse_conditional_statement fuel s with
    | fatal e s' => rfl
    | ok r s' =>
      have hf := (parsers_restore_flag fuel).1 s r s' hr
      simp [PResult.okState, Option.all, hf]
  · intro fuel s
    cases hr : parse_loop_statement fuel s with
    | fatal e s' => rfl
    | ok r s' =>
      have hf := (parsers_restore_flag fuel).2.1 s r s' hr
      simp [PResult.okState, Option.all, hf]

/-- Example stream for C3: the bare expression statement `x ;`. -/
def c3_ctx : ParserContext := mkContext [tk (Token.Ident "x") 0, tk Token.Semicolon 1]

/-- State after parsing `x` in `x ;`. -/
def c3_s1 : ParserContext :=
  ⟨[], tk Token.Semicolon 1, tk (Token.Ident "x") 0, false, []⟩

/-- State after consuming the semicolon of `x ;`. -/
def c3_s2 : ParserContext :=
  ⟨[], ⟨Token.Eof, ⟨1, 2⟩⟩, tk Token.Semicolon 1, false, []⟩

/-- Example stream for C3: `x )` — no terminating semicolon. -/
def c3_ctx_bad : ParserContext := mkContext [tk (Token.Ident "x") 0, tk Token.RightParen 1]

/-- State after parsing `x` in `x )`. -/
def c3_s1_bad : ParserContext :=
  ⟨[], tk Token.RightParen 1, tk (Token.Ident "x") 0, false, []⟩

/-- C3: when parse_assign_statement parses an expression not followed by an
assignment operator, it still requires the terminating semicolon (a missing
one is a fatal error), emits exactly one recoverable expr_stmts_disallowed
diagnostic, and returns a dummy placeholder statement whose span merges the
expression's span with the terminator's. -/
theorem claim3_expr_statement_recovery :
    (∀ (s : ParserContext) (e : Expression) (s1 : ParserContext) (sp : Span)
      (s2 : ParserContext),
      parse_expression s = .ok e s1 →
      s1.token.token ≠ Token.Assign →
      expect Token.Semicolon s1 = .ok sp s2 →
      parse_assign_statement s =
        .ok (Statement.dummy (e.span + sp))
          (emit_err (ParserError.expr_stmts_disallowed (e.span + sp)) s2) ∧
      (emit_err (ParserError.expr_stmts_disallowed (e.span + sp)) s2).diagnostics =
        s2.diagnostics ++ [ParserError.expr_stmts_disallowed (e.span + sp)]) ∧
    (∀ (s : ParserContext) (e : Expression) (s1 : ParserContext),
      parse_expression s = .ok e s1 →
      s1.token.token ≠ Token.Assign →
      s1.token.token ≠ Token.Semicolon →
      parse_assign_statement s =
        .fatal (ParserError.unexpected s1.token.token [Token.Semicolon] s1.token.span) s1) := by
  constructor
  · intro s e s1 sp s2 h1 h2 h3
    obtain ⟨hsp, hs2, htok⟩ := expect_eq_ok h3
    have heat : eat_any ASSIGN_TOKENS s1 = (false, s1) := by
      unfold eat_any
      rw [if_neg]
      simp only [ASSIGN_TOKENS, List.mem_singleton]
      exact h2
    constructor
    · unfold parse_assign_statement
      rw [h1]
      dsimp only
      rw [heat]
      dsimp only
      rw [if_neg Bool.false_ne_true, h3]
      dsimp only
      have hprev : s2.prev_token.span = sp := by
        rw [hs2, bump_prev, hsp]
      rw [hprev]
    · rfl
  · intro s e s1 h1 h2 h3
    have heat : eat_any ASSIGN_TOKENS s1 = (false, s1) := by
      unfold eat_any
      rw [if_neg]
      simp only [ASSIGN_TOKENS, List.mem_singleton]
      exact h2
    have hsemi : expect Token.Semicolon s1 =
        .fatal (ParserError.unexpected s1.token.token [Token.Semicolon] s1.token.span) s1 := by
      unfold expect
      rw [if_neg h3]
    unfold parse_assign_statement
    rw [h1]
    dsimp only
    rw [heat]
    dsimp only
    rw [if_neg Bool.false_ne_true, hsemi]

/-- Witness for C3 at `x ;` (recovery path) and `x )` (missing
terminator). -/
theorem claim3_expr_statement_recovery_witness :
    (parse_expression c3_ctx = .ok (Expression.identifier ⟨"x", ⟨0, 1⟩⟩) c3_s1 ∧
     c3_s1.token.token ≠ Token.Assign ∧
     expect Token.Semicolon c3_s1 = .ok ⟨1, 2⟩ c3_s2 ∧
     parse_assign_statement c3_ctx =
       .ok (Statement.dummy ((Expression.identifier ⟨"x", ⟨0, 1⟩⟩).span + ⟨1, 2⟩))
         (emit_err (ParserError.expr_stmts_disallowed
           ((Expression.identifier ⟨"x", ⟨0, 1⟩⟩).span + ⟨1, 2⟩)) c3_s2)) ∧
    (parse_expression c3_ctx_bad = .ok (Expression.identifier ⟨"x", ⟨0, 1⟩⟩) c3_s1_bad ∧
     c3_s1_bad.token.token ≠ Token.Assign ∧
     c3_s1_bad.token.token ≠ Token.Semicolon ∧
     parse_assign_statement c3_ctx_bad =
       .fatal (ParserError.unexpected c3_s1_bad.token.token [Token.Semicolon]
         c3_s1_bad.token.span) c3_s1_bad) :=
  ⟨⟨rfl, by decide, rfl,
    (claim3_expr_statement_recovery.1 c3_ctx (Expression.identifier ⟨"x", ⟨0, 1⟩⟩)
      c3_s1 ⟨1, 2⟩ c3_s2 rfl (by decide) rfl).1⟩,
   ⟨rfl, by decide, by decide,
    claim3_expr_statement_recovery.2 c3_ctx_bad (Expression.identifier ⟨"x", ⟨0, 1⟩⟩)
      c3_s1_bad rfl (by decide) (by decide)⟩⟩

/-- Example stream for C4: `1 = x ;` — a literal as assignment target. -/
def c4_ctx : ParserContext := mkContext
  [tk (Token.Int 1) 0, tk Token.Assign 1, tk (Token.Ident "x") 2, tk Token.Semicolon 3]

/-- State after parsing `1` in `1 = x ;`. -/
def c4_s1 : ParserContext :=
  ⟨[tk (Token.Ident "x") 2, tk Token.Semicolon 3], tk Token.Assign 1,
   tk (Token.Int 1) 0, false, []⟩

/-- State after parsing the right-hand `x` in `1 = x ;`. -/
def c4_s2 : ParserContext :=
  ⟨[], tk Token.Semicolon 3, tk (Token.Ident "x") 2, false, []⟩

/-- C4: when parse_assign_statement finds an assignment operator and the
left-hand expression is not an identifier expression, the parse returns a
fatal invalid_assignment_target error and produces no statement. -/
theorem claim4_invalid_assignment_target :
    ∀ (s : ParserContext) (e : Expression) (s1 : ParserContext) (v : Expression)
      (s2 : ParserContext),
      parse_expression s = .ok e s1 →
      s1.token.token = Token.Assign →
      parse_expression (bump s1) = .ok v s2 →
      (∀ id : Identifier, e ≠ Expression.identifier id) →
      parse_assign_statement s =
        .fatal (ParserError.invalid_assignment_target e.span) s2 := by
  intro s e s1 v s2 h1 h2 h3 hid
  have heat : eat_any ASSIGN_TOKENS s1 = (true, bump s1) := by
    unfold eat_any
    rw [if_pos]
    simp only [ASSIGN_TOKENS, List.mem_singleton]
    exact h2
  have hca : construct_assignee e =
      .error (ParserError.invalid_assignment_target e.span) := by
    cases e with
    | identifier id => exact absurd rfl (hid id)
    | value n sp => rfl
    | circuitInit id sp => rfl
  unfold parse_assign_statement
  rw [h1]
  dsimp only
  rw [heat]
  dsimp only
  rw [if_pos rfl, h3]
  dsimp only
  rw [hca]

/-- Witness for C4 at `1 = x ;`. -/
theorem claim4_invalid_assignment_target_witness :
    (parse_expression c4_ctx = .ok (Expression.value 1 ⟨0, 1⟩) c4_s1 ∧
     c4_s1.token.token = Token.Assign ∧
     parse_expression (bump c4_s1) = .ok (Expression.identifier ⟨"x", ⟨2, 3⟩⟩) c4_s2 ∧
     (∀ id : Identifier, Expression.value 1 ⟨0, 1⟩ ≠ Expression.identifier id)) ∧
    parse_assign_statement c4_ctx =
      .fatal (ParserError.invalid_assignment_target (Expression.value 1 ⟨0, 1⟩).span) c4_s2 :=
  ⟨⟨rfl, rfl, rfl, fun _ h => Expression.noConfusion h⟩,
   claim4_invalid_assignment_target c4_ctx (Expression.value 1 ⟨0, 1⟩) c4_s1
     (Expression.identifier ⟨"x", ⟨2, 3⟩⟩) c4_s2 rfl rfl rfl
     (fun _ h => Expression.noConfusion h)⟩

/-- Example stream for C5: `let x : u32 = y ;`. -/
def c5_ctx_plain : ParserContext := mkContext
  [tk Token.Let 0, tk (Token.Ident "x") 1, tk Token.Colon 2, tk Token.U32 3,
   tk Token.Assign 4, tk (Token.Ident "y") 5, tk Token.Semicolon 6]

/-- Example stream for C5: `let ( x ) : u32 = y ;`. -/
def c5_ctx_paren : ParserContext := mkContext
  [tk Token.Let 0, tk Token.LeftParen 1, tk (Token.Ident "x") 2, tk Token.RightParen 3,
   tk Token.Colon 4, tk Token.U32 5, tk Token.Assign 6, tk (Token.Ident "y") 7,
   tk Token.Semicolon 8]

/-- C5: parsing `let (x) : T = v;` produces a DefinitionStatement with the
same AST shape (declaration kind, single VariableName, type, initializer,
compared with spans erased) as `let x : T = v;`, and additionally emits
exactly one recoverable diagnostic for the redundant parentheses. -/
theorem claim5_redundant_parens_equivalence :
    (parse_definition_statement 8 c5_ctx_paren).isOk = true ∧
    (parse_definition_statement 8 c5_ctx_plain).isOk = true ∧
    ((parse_definition_statement 8 c5_ctx_paren).getOk.map
      fun d => d.declaration_type) =
      ((parse_definition_statement 8 c5_ctx_plain).getOk.map
        fun d => d.declaration_type) ∧
    ((parse_definition_statement 8 c5_ctx_paren).getOk.map
      fun d => d.variable_names.map fun v => (v.identifier.name, v.mutable)) =
      ((parse_definition_statement 8 c5_ctx_plain).getOk.map
        fun d => d.variable_names.map fun v => (v.identifier.name, v.mutable)) ∧
    ((parse_definition_statement 8 c5_ctx_paren).getOk.map
      fun d => d.variable_names.length) = some 1 ∧
    ((parse_definition_statement 8 c5_ctx_paren).getOk.map fun d => d.type_) =
      ((parse_definition_statement 8 c5_ctx_plain).getOk.map fun d => d.type_) ∧
    ((parse_definition_statement 8 c5_ctx_paren).getOk.map fun d => d.value.shape) =
      ((parse_definition_statement 8 c5_ctx_plain).getOk.map fun d => d.value.shape) ∧
    (parse_definition_statement 8 c5_ctx_plain).state.diagnostics = [] ∧
    (parse_definition_statement 8 c5_ctx_paren).state.diagnostics =
      [ParserError.invalid_parens_around_single_variable ⟨2, 3⟩] :=
  ⟨rfl, rfl, rfl, rfl, rfl, rfl, rfl, rfl, rfl⟩

/-- C6: when an else clause is present and the recursively parsed else
statement is neither a Block nor a Conditional, the parser emits exactly one
recoverable unexpected_statement diagnostic and still attaches that
statement as the conditional's `next` successor, returning successfully. -/
theorem claim6_else_non_block_attached :
    ∀ (fuel : Nat) (s : ParserContext) (sp0 : Span) (s1 : ParserContext)
      (e : Expression) (s2 : ParserContext) (b : Block) (s3 : ParserContext)
      (st : Statement) (s4 : ParserContext),
      expect Token.If s = .ok sp0 s1 →
      parse_conditional_expression
        { s1 with disallow_circuit_construction := true } = .ok e s2 →
      parse_block fuel { s2 with disallow_circuit_construction := false } = .ok b s3 →
      s3.token.token = Token.Else →
      parse_statement fuel (bump s3) = .ok st s4 →
      (match st with
       | Statement.Block _ => False
       | Statement.Conditional _ => False
       | _ => True) →
      parse_conditional_statement (fuel + 1) s =
        .ok (ConditionalStatement.mk e b (some st) (sp0 + st.span))
          (emit_err (ParserError.unexpected_statement "Block or Conditional" st.span) s4) ∧
      (emit_err (ParserError.unexpected_statement "Block or Conditional" st.span)
        s4).diagnostics =
        s4.diagnostics ++ [ParserError.unexpected_statement "Block or Conditional" st.span] := by
  intro fuel s sp0 s1 e s2 b s3 st s4 h1 h2 h3 h4 h5 h6
  constructor
  · have heat : eat Token.Else s3 = (true, bump s3) := by
      unfold eat
      rw [if_pos h4]
    simp only [parse_conditional_statement]
    rw [h1]
    dsimp only
    rw [h2]
    dsimp only
    rw [h3]
    dsimp only
    rw [heat]
    dsimp only
    rw [if_pos rfl, h5]
    dsimp only
    cases st <;> first | exact h6.elim | rfl
  · rfl

/-- Token stream for the C6 witness: `if c { } else return x ;`. -/
def c6_ctx : ParserContext := mkContext
  [tk Token.If 0, tk (Token.Ident "c") 1, tk Token.LeftCurly 2, tk Token.RightCurly 3,
   tk Token.Else 4, tk Token.Return 5, tk (Token.Ident "x") 6, tk Token.Semicolon 7]

/-- State after `if` in the C6 witness. -/
def c6_s1 : ParserContext :=
  ⟨[tk Token.LeftCurly 2, tk Token.RightCurly 3, tk Token.Else 4,
    tk Token.Return 5, tk (Token.Ident "x") 6, tk Token.Semicolon 7],
   tk (Token.Ident "c") 1, tk Token.If 0, false, []⟩

/-- State after the condition `c` in the C6 witness (flag set). -/
def c6_s2 : ParserContext :=
  ⟨[tk Token.RightCurly 3, tk Token.Else 4, tk Token.Return 5,
    tk (Token.Ident "x") 6, tk Token.Semicolon 7],
   tk Token.LeftCurly 2, tk (Token.Ident "c") 1, true, []⟩

/-- State after the body block in the C6 witness. -/
def c6_s3 : ParserContext :=
  ⟨[tk Token.Return 5, tk (Token.Ident "x") 6, tk Token.Semicolon 7],
   tk Token.Else 4, tk Token.RightCurly 3, false, []⟩

/-- The attached else statement of the C6 witness. -/
def c6_st : Statement :=
  Statement.Return ⟨Expression.identifier ⟨"x", ⟨6, 7⟩⟩, ⟨5, 7⟩⟩

/-- State after the else statement in the C6 witness. -/
def c6_s4 : ParserContext :=
  ⟨[], ⟨Token.Eof, ⟨7, 8⟩⟩, tk Token.Semicolon 7, false, []⟩

/-- Witness for C6 at `if c { } else return x ;`. -/
theorem claim6_else_non_block_attached_witness :
    (expect Token.If c6_ctx = .ok ⟨0, 1⟩ c6_s1 ∧
     parse_conditional_expression
       { c6_s1 with disallow_circuit_construction := true } =
       .ok (Expression.identifier ⟨"c", ⟨1, 2⟩⟩) c6_s2 ∧
     parse_block 7 { c6_s2 with disallow_circuit_construction := false } =
       .ok (Block.mk [] ⟨2, 4⟩) c6_s3 ∧
     c6_s3.token.token = Token.Else ∧
     parse_statement 7 (bump c6_s3) = .ok c6_st c6_s4) ∧
    parse_conditional_statement 8 c6_ctx =
      .ok (ConditionalStatement.mk (Expression.identifier ⟨"c", ⟨1, 2⟩⟩)
          (Block.mk [] ⟨2, 4⟩) (some c6_st) (⟨0, 1⟩ + c6_st.span))
        (emit_err (ParserError.unexpected_statement "Block or Conditional" c6_st.span)
          c6_s4) :=
  ⟨⟨rfl, rfl, rfl, rfl, rfl⟩,
   (claim6_else_non_block_attached 7 c6_ctx ⟨0, 1⟩ c6_s1
     (Expression.identifier ⟨"c", ⟨1, 2⟩⟩) c6_s2 (Block.mk [] ⟨2, 4⟩) c6_s3
     c6_st c6_s4 rfl rfl rfl rfl rfl trivial).1⟩

/-- Example stream for C7: `console.frobnicate("x");`. -/
def c7_ctx : ParserContext := mkContext
  [tk Token.Console 0, tk Token.Dot 1, tk (Token.Ident "frobnicate") 2,
   tk Token.LeftParen 3, tk (Token.StringLit ['x']) 4, tk Token.RightParen 5,
   tk Token.Semicolon 6]

/-- C7: a console statement whose function identifier is none of `assert`,
`error`, `log` is parsed as a Log console function after one recoverable
diagnostic listing the valid names, rather than returning a fatal error; in
particular `console.frobnicate("x");` yields a Log with format string "x"
and exactly that one diagnostic. -/
theorem claim7_unknown_console_function_log :
    (∀ (fuel : Nat) (s : ParserContext) (kw : Span) (s1 : ParserContext) (spd : Span)
      (s2 : ParserContext) (id : Identifier) (s3 : ParserContext) (args : ConsoleArgs)
      (s4 : ParserContext) (sps : Span) (s5 : ParserContext),
      expect Token.Console s = .ok kw s1 →
      expect Token.Dot s1 = .ok spd s2 →
      expect_ident s2 = .ok id s3 →
      id.name ≠ "assert" → id.name ≠ "error" → id.name ≠ "log" →
      parse_console_args fuel
        (emit_err (ParserError.unexpected_ident id.name ["assert", "error", "log"]
          id.span) s3) = .ok args s4 →
      expect Token.Semicolon s4 = .ok sps s5 →
      parse_console_statement fuel s =
        .ok (⟨ConsoleFunction.Log args, kw + args.span⟩ : ConsoleStatement) s5) ∧
    ((parse_console_statement 8 c7_ctx).getOk.map
      fun cs => (match cs.function with
        | ConsoleFunction.Log a => some (a.string, a.parameters.length)
        | _ => none)) = some (some (['x'], 0)) ∧
    (parse_console_statement 8 c7_ctx).state.diagnostics =
      [ParserError.unexpected_ident "frobnicate" ["assert", "error", "log"] ⟨2, 3⟩] := by
  refine ⟨?_, rfl, rfl⟩
  intro fuel s kw s1 spd s2 id s3 args s4 sps s5 h1 h2 h3 hA hB hC h7 h8
  unfold parse_console_statement
  rw [h1]
  dsimp only
  rw [h2]
  dsimp only
  rw [h3]
  dsimp only
  rw [if_neg hA, if_neg hB, if_neg hC]
  try dsimp only
  rw [h7]
  try dsimp only
  rw [h8]
  rfl

/-- State after `console` in the C7 witness. -/
def c7_s1 : ParserContext :=
  ⟨[tk (Token.Ident "frobnicate") 2, tk Token.LeftParen 3, tk (Token.StringLit ['x']) 4,
    tk Token.RightParen 5, tk Token.Semicolon 6],
   tk Token.Dot 1, tk Token.Console 0, false, []⟩

/-- State after the dot in the C7 witness. -/
def c7_s2 : ParserContext :=
  ⟨[tk Token.LeftParen 3, tk (Token.StringLit ['x']) 4, tk Token.RightParen 5,
    tk Token.Semicolon 6],
   tk (Token.Ident "frobnicate") 2, tk Token.Dot 1, false, []⟩

/-- State after the function identifier in the C7 witness. -/
def c7_s3 : ParserContext :=
  ⟨[tk (Token.StringLit ['x']) 4, tk Token.RightParen 5, tk Token.Semicolon 6],
   tk Token.LeftParen 3, tk (Token.Ident "frobnicate") 2, false, []⟩

/-- State after the argument list in the C7 witness (diagnostic emitted). -/
def c7_s4 : ParserContext :=
  ⟨[], tk Token.Semicolon 6, tk Token.RightParen 5, false,
   [ParserError.unexpected_ident "frobnicate" ["assert", "error", "log"] ⟨2, 3⟩]⟩

/-- Final state of the C7 witness. -/
def c7_s5 : ParserContext :=
  ⟨[], ⟨Token.Eof, ⟨6, 7⟩⟩, tk Token.Semicolon 6, false,
   [ParserError.unexpected_ident "frobnicate" ["assert", "error", "log"] ⟨2, 3⟩]⟩

/-- Witness for C7 at `console.frobnicate("x");`. -/
theorem claim7_unknown_console_function_log_witness :
    (expect Token.Console c7_ctx = .ok ⟨0, 1⟩ c7_s1 ∧
     expect Token.Dot c7_s1 = .ok ⟨1, 2⟩ c7_s2 ∧
     expect_ident c7_s2 = .ok ⟨"frobnicate", ⟨2, 3⟩⟩ c7_s3 ∧
     ("frobnicate" : String) ≠ "assert" ∧
     ("frobnicate" : String) ≠ "error" ∧
     ("frobnicate" : String) ≠ "log" ∧
     parse_console_args 8
       (emit_err (ParserError.unexpected_ident "frobnicate" ["assert", "error", "log"]
         ⟨2, 3⟩) c7_s3) = .ok ⟨['x'], ⟨3, 6⟩, []⟩ c7_s4 ∧
     expect Token.Semicolon c7_s4 = .ok ⟨6, 7⟩ c7_s5) ∧
    parse_console_statement 8 c7_ctx =
      .ok (⟨ConsoleFunction.Log ⟨['x'], ⟨3, 6⟩, []⟩, ⟨0, 1⟩ + Span.mk 3 6⟩ :
        ConsoleStatement) c7_s5 :=
  ⟨⟨rfl, rfl, rfl, by decide, by decide, by decide, rfl, rfl⟩,
   claim7_unknown_console_function_log.1 8 c7_ctx ⟨0, 1⟩ c7_s1 ⟨1, 2⟩ c7_s2
     ⟨"frobnicate", ⟨2, 3⟩⟩ c7_s3 ⟨['x'], ⟨3, 6⟩, []⟩ c7_s4 ⟨6, 7⟩ c7_s5
     rfl rfl rfl (by decide) (by decide) (by decide) rfl rfl⟩

/-- Example stream for C2: `let ( ) : u32 = x ;` — an empty parenthesized
variable-name list. -/
def c2_ctx_empty : ParserContext := mkContext
  [tk Token.Let 0, tk Token.LeftParen 1, tk Token.RightParen 2, tk Token.Colon 3,
   tk Token.U32 4, tk Token.Assign 5, tk (Token.Ident "x") 6, tk Token.Semicolon 7]

/-- Example stream for C2 (witness): `let x : u32 = y ;`. -/
def c2_ctx_plain : ParserContext := mkContext
  [tk Token.Let 0, tk (Token.Ident "x") 1, tk Token.Colon 2, tk Token.U32 3,
   tk Token.Assign 4, tk (Token.Ident "y") 5, tk Token.Semicolon 6]

/-- C2 counterexample: `let ( ) : u32 = x ;` — the parenthesized form with
zero names — parses successfully to a DefinitionStatement whose
variable-name list is empty, contradicting "one or more VariableName
entries". -/
theorem claim2_counterexample :
    (parse_definition_statement 8 c2_ctx_empty).isOk = true ∧
    ((parse_definition_statement 8 c2_ctx_empty).getOk.map
      fun d => d.variable_names) = some [] :=
  ⟨rfl, rfl⟩

/-- The tail of the definition-statement parser leaves the parsed
variable-name list untouched: a successful overall parse carries exactly the
names its input result carried. -/
theorem definition_finish_vars (decl_type : Declare) (decl_span : Span)
    (r : PResult (List VariableName)) :
    ∀ (d : DefinitionStatement) (s' : ParserContext),
      (match r with
       | .fatal e s => PResult.fatal e s
       | .ok variable_names s =>
         match expect Token.Colon s with
         | .fatal e s => PResult.fatal e s
         | .ok _ s =>
           match parse_type s with
           | .fatal e s => PResult.fatal e s
           | .ok type_ s =>
             match expect Token.Assign s with
             | .fatal e s => PResult.fatal e s
             | .ok _ s =>
               match parse_expression s with
               | .fatal e s => PResult.fatal e s
               | .ok expr s =>
                 match expect Token.Semicolon s with
                 | .fatal e s => PResult.fatal e s
                 | .ok _ s =>
                   PResult.ok (⟨decl_type, variable_names, type_.1, expr,
                     decl_span + expr.span⟩ : DefinitionStatement) s) = .ok d s' →
      r.getOk = some d.variable_names := by
  cases r with
  | fatal e s2 =>
    intro d s' h
    exact PResult.noConfusion h
  | ok variable_names s2 =>
    intro d s' h
    dsimp only at h
    split at h
    · exact PResult.noConfusion h
    · split at h
      · exact PResult.noConfusion h
      · split at h
        · exact PResult.noConfusion h
        · split at h
          · exact PResult.noConfusion h
          · split at h
            · exact PResult.noConfusion h
            · cases h
              rfl

/-- C2 (amended): a DefinitionStatement parsed from the bare-identifier form
(the token after `let`/`const` is not `(`) has exactly one VariableName; the
parenthesized form returns exactly the listed names, which may be zero. -/
theorem claim2_amended_variable_names :
    ∀ (fuel : Nat) (s : ParserContext),
      (s.tokens.head?.all fun t => !(decide (t.token = Token.LeftParen))) = true →
      ((parse_definition_statement fuel s).getOk.all
        fun d => decide (d.variable_names.length = 1)) = true := by
  intro fuel s hh
  cases hd : parse_definition_statement fuel s with
  | fatal e s' => rfl
  | ok d s' =>
    suffices hlen : d.variable_names.length = 1 by
      simp [PResult.getOk, Option.all, hlen]
    unfold parse_definition_statement at hd
    split at hd
    · exact PResult.noConfusion hd
    · rename_i sp1 s1 heq1
      obtain ⟨-, hs1, -⟩ := expect_any_eq_ok heq1
      subst hs1
      dsimp only at hd
      have hpeek : peek_is_left_par (bump s) = false := by
        unfold peek_is_left_par bump
        cases htk : s.tokens with
        | nil => rfl
        | cons t rest =>
          rw [htk] at hh
          cases hb : decide (t.token = Token.LeftParen) with
          | false => rfl
          | true =>
            exfalso
            have hh' : (!decide (t.token = Token.LeftParen)) = true := hh
            rw [hb] at hh'
            exact Bool.noConfusion hh'
      rw [hpeek, if_neg Bool.false_ne_true] at hd
      have hvars := definition_finish_vars _ _ _ d s' hd
      cases hv : parse_variable_name
          (match (bump s).prev_token.token with
           | Token.Let => Declare.Let
           | Token.Const => Declare.Const
           | _ => Declare.Let)
          (bump s).prev_token.span (bump s) with
      | fatal e s2 =>
        rw [hv] at hvars
        exact Option.noConfusion hvars
      | ok v s2 =>
        rw [hv] at hvars
        have hv2 : some [v] = some d.variable_names := hvars
        have hv3 : [v] = d.variable_names := Option.some.inj hv2
        rw [← hv3]
        rfl

/-- Witness for C2 (amended) at `let x : u32 = y ;`. -/
theorem claim2_amended_variable_names_witness :
    (c2_ctx_plain.tokens.head?.all fun t => !(decide (t.token = Token.LeftParen))) = true ∧
    ((parse_definition_statement 8 c2_ctx_plain).getOk.all
      fun d => decide (d.variable_names.length = 1)) = true :=
  ⟨rfl, claim2_amended_variable_names 8 c2_ctx_plain rfl⟩

end LeoParser
